import Mathlib

set_option maxHeartbeats 1000000

/-!
Verification of the firecamp manage-server catalog pipeline
(src/manage/server/catalogservice.go and src/manage/server/server.go).

The Go handlers are shallowly embedded as pure Lean functions over an explicit
`World` state (metadata DB + in-memory init-task runner + external environment).
Every call to the metadata DB, the container platform or the control-plane
create protocol is additionally recorded in an event trace, so that ordering
and "performs no call" properties can be stated.

External collaborators that are repository code not present under src
(the DB driver, the task runner, the per-catalog probe/transform packages,
utils.GenMemberConfigFileID, manage.CreateConfigFile, the setServiceInitialized
helper, the create protocol) are modelled from the spec; each such definition
carries a doc comment saying so.
-/

namespace Firecamp

/-- Typed errors of the metadata / platform layer (spec section 7 taxonomy). -/
inductive Err where
  | notFound
  | serviceExists
  | configMismatch
  | conditionFailed
  | internal
  deriving DecidableEq, Repr

/-- Service lifecycle status (spec section 3, common.ServiceStatus constants). -/
inductive ServiceStatus where
  | creating
  | initializing
  | active
  | deleting
  deriving DecidableEq, Repr

/-- Catalog service type tag carried by requests (the Go code dispatches on the
catalog.CatalogService string constants; unknown covers every other string). -/
inductive CatalogServiceType where
  | mongodb
  | postgresql
  | cassandra
  | zookeeper
  | kafka
  | redis
  | couchdb
  | consul
  | elasticsearch
  | kibana
  | logstash
  | unknown (tag : String)
  deriving DecidableEq, Repr

/-- Modelled from the spec: a config fileID embeds memberName, fileName and a
numeric version (section 6, persisted state layout). The Go helpers
utils.GenMemberConfigFileID and utils.GetConfigFileVersion (not under src) are a
stable inverse pair, so the fileID is modelled as the triple itself. -/
structure FileID where
  memberName : String
  fileName : String
  version : Int
  deriving DecidableEq, Repr

/-- Modelled from the spec: utils.GenMemberConfigFileID(memberName, fileName, version)
(not under src) builds the fileID from its three components. -/
def GenMemberConfigFileID (memberName fileName : String) (version : Int) : FileID :=
  ⟨memberName, fileName, version⟩

/-- Modelled from the spec: utils.GetConfigFileVersion(fileID) (not under src)
extracts the numeric version embedded in the fileID. -/
def GetConfigFileVersion (fid : FileID) : Int :=
  fid.version

/-- Modelled from the spec: utils.GenMD5 (not under src); fileMD5 = MD5(content).
The digest is abstracted as an injective tagging of the content. -/
def GenMD5 (content : String) : String :=
  "md5-" ++ content

/-- One config slot of a service member (common.MemberConfig). -/
structure MemberConfig where
  FileName : String
  FileID : FileID
  FileMD5 : String
  deriving DecidableEq, Repr

/-- A versioned config file in the config store (common.ConfigFile). -/
structure ConfigFile where
  ServiceUUID : String
  FileID : FileID
  FileName : String
  FileMode : Nat
  Content : String
  FileMD5 : String
  deriving DecidableEq, Repr

/-- A service member / replica (common.ServiceMember). -/
structure ServiceMember where
  ServiceUUID : String
  MemberName : String
  StaticIP : String
  Configs : List MemberConfig
  deriving DecidableEq, Repr

/-- A service record, (cluster, serviceName) resolves to it (common.Service). -/
structure Service where
  ServiceUUID : String
  ServiceName : String
  deriving DecidableEq, Repr

/-- Service attributes keyed by serviceUUID (common.ServiceAttr). -/
structure ServiceAttr where
  ServiceUUID : String
  ServiceName : String
  ServiceStatus : ServiceStatus
  Replicas : Int
  DomainName : String
  deriving DecidableEq, Repr

/-- A default config file template carried by a create / init request
(manage.ReplicaConfigFile). -/
structure ReplicaConfigFile where
  FileName : String
  FileMode : Nat
  Content : String
  deriving DecidableEq, Repr

/-- Association list lookup (first binding of the key wins). -/
def alookup {α β : Type} [DecidableEq α] : List (α × β) → α → Option β
  | [], _ => none
  | (k, v) :: rest, k' => if k = k' then some v else alookup rest k'

/-- Association list update: replaces the first binding of the key, or appends. -/
def aset {α β : Type} [DecidableEq α] : List (α × β) → α → β → List (α × β)
  | [], k, v => [(k, v)]
  | (k0, v0) :: rest, k, v =>
    if k0 = k then (k, v) :: rest else (k0, v0) :: aset rest k v

/-- Association list removal of every binding of the key. -/
def aerase {α β : Type} [DecidableEq α] : List (α × β) → α → List (α × β)
  | [], _ => []
  | (k0, v0) :: rest, k =>
    if k0 = k then aerase rest k else (k0, v0) :: aerase rest k

/-- Modelled from the spec: the metadata database state (section 6, persisted
state layout). Keys: (cluster, serviceName) to Service; serviceUUID to
ServiceAttr; serviceUUID to its ServiceMembers; (serviceUUID, fileID) to
ConfigFile. The DB driver itself is an interface-only collaborator. -/
structure DB where
  services : List ((String × String) × Service)
  attrs : List (String × ServiceAttr)
  members : List (String × List ServiceMember)
  configFiles : List ((String × FileID) × ConfigFile)
  deriving DecidableEq, Repr

/-- Modelled from the spec: dbIns.GetService(cluster, serviceName). -/
def dbGetService (db : DB) (cluster name : String) : Except Err Service :=
  match alookup db.services (cluster, name) with
  | some svc => .ok svc
  | none => .error .notFound

/-- Modelled from the spec: dbIns.GetServiceAttr(serviceUUID). -/
def dbGetServiceAttr (db : DB) (uuid : String) : Except Err ServiceAttr :=
  match alookup db.attrs uuid with
  | some attr => .ok attr
  | none => .error .notFound

/-- Modelled from the spec: dbIns.ListServiceMembers(serviceUUID). -/
def membersOf (db : DB) (uuid : String) : List ServiceMember :=
  (alookup db.members uuid).getD []

/-- Modelled from the spec: dbIns.GetConfigFile(serviceUUID, fileID). -/
def dbGetConfigFile (db : DB) (uuid : String) (fid : FileID) : Except Err ConfigFile :=
  match alookup db.configFiles (uuid, fid) with
  | some f => .ok f
  | none => .error .notFound

/-- Modelled from the spec: dbIns.DeleteConfigFile(serviceUUID, fileID). -/
def dbDeleteConfigFile (db : DB) (uuid : String) (fid : FileID) : DB :=
  { db with configFiles := aerase db.configFiles (uuid, fid) }

/-- The stored member with the given name, within one service. -/
def findMember (db : DB) (uuid name : String) : Option ServiceMember :=
  (membersOf db uuid).find? fun m => decide (m.MemberName = name)

/-- Modelled from the spec: dbIns.UpdateServiceMember(old, new) is a
compare-and-swap on the member record; it fails loud with a condition error if
the stored member diverges from the expected previous image (section 4.1 (v)). -/
def dbUpdateServiceMember (db : DB) (oldM newM : ServiceMember) : Except Err DB :=
  let ms := membersOf db oldM.ServiceUUID
  match ms.find? (fun m => decide (m.MemberName = oldM.MemberName)) with
  | some stored =>
    if stored = oldM then
      .ok { db with
              members := aset db.members oldM.ServiceUUID
                (ms.map fun m => if m.MemberName = oldM.MemberName then newM else m) }
    else .error .conditionFailed
  | none => .error .notFound

/-- Modelled from the spec: ServiceRegistry.SetServiceStatus(serviceUUID, status)
(section 4.2). -/
def dbSetServiceStatus (db : DB) (uuid : String) (st : ServiceStatus) : Except Err DB :=
  match alookup db.attrs uuid with
  | some attr =>
    .ok { db with attrs := aset db.attrs uuid { attr with ServiceStatus := st } }
  | none => .error .notFound

/-- Modelled from the spec: dbIns.DeleteService(cluster, serviceName). -/
def dbDeleteService (db : DB) (cluster name : String) : Except Err DB :=
  match alookup db.services (cluster, name) with
  | some _ => .ok { db with services := aerase db.services (cluster, name) }
  | none => .error .notFound

/-- Modelled from the spec: dbIns.ListServices(cluster) lists the services of
the local cluster. -/
def dbListServices (db : DB) (cluster : String) : List Service :=
  (db.services.filter fun p => decide (p.1.1 = cluster)).map (·.2)

/-- Modelled from the spec: manage.CreateConfigFile (not under src) is
idempotent on fileID: if a file with the same id already exists and its MD5
matches, it returns the existing file; a mismatch fails with ConfigMismatch;
otherwise the file is inserted (section 4.1). -/
def CreateConfigFile (db : DB) (f : ConfigFile) : Except Err (ConfigFile × DB) :=
  match alookup db.configFiles (f.ServiceUUID, f.FileID) with
  | some existing =>
    if existing.FileMD5 = f.FileMD5 then .ok (existing, db) else .error .configMismatch
  | none =>
    .ok (f, { db with configFiles := aset db.configFiles (f.ServiceUUID, f.FileID) f })

/-- Modelled from the spec: db.CreateInitialConfigFile (not under src) builds a
ConfigFile record with fileMD5 = MD5(content). -/
def CreateInitialConfigFile (uuid : String) (fid : FileID) (fileName : String)
    (fileMode : Nat) (content : String) : ConfigFile :=
  ⟨uuid, fid, fileName, fileMode, content, GenMD5 content⟩

/-- Modelled from the spec: db.UpdateConfigFile (not under src) derives the next
version of a config file: new fileID, new content, recomputed MD5. -/
def UpdateConfigFile (cf : ConfigFile) (newFileID : FileID) (newContent : String) : ConfigFile :=
  { cf with FileID := newFileID, Content := newContent, FileMD5 := GenMD5 newContent }

/-- Modelled from the spec: db.CopyMemberConfigs (not under src); Lean values
are immutable so the deep copy is the identity. -/
def CopyMemberConfigs (cfgs : List MemberConfig) : List MemberConfig :=
  cfgs

/-- Modelled from the spec: db.UpdateServiceMemberConfigs (not under src)
replaces the member's config slots. -/
def UpdateServiceMemberConfigs (member : ServiceMember) (newConfigs : List MemberConfig) :
    ServiceMember :=
  { member with Configs := newConfigs }

/-- Modelled from the spec: the in-memory init task runner (section 4.5) maps a
serviceUUID to the live task's status message. -/
structure TaskRunner where
  tasks : List (String × String)
  deriving DecidableEq, Repr

/-- Modelled from the spec: catalogSvcInit.hasInitTask(serviceUUID) returns
whether a live task exists together with its current status message. -/
def hasInitTask (r : TaskRunner) (uuid : String) : Bool × String :=
  match alookup r.tasks uuid with
  | some msg => (true, msg)
  | none => (false, "")

/-- Modelled from the spec: catalogSvcInit.addInitTask is a single-writer-wins
guarded insert on serviceUUID; a no-op when a task already exists (section 4.5). -/
def addInitTask (r : TaskRunner) (uuid : String) : TaskRunner :=
  match alookup r.tasks uuid with
  | some _ => r
  | none => { tasks := (uuid, "") :: r.tasks }

/-- Modelled from the spec: catalogSvcInit.UpdateTaskStatusMsg is a
last-writer-wins publish of the task's status message. -/
def UpdateTaskStatusMsg (r : TaskRunner) (uuid msg : String) : TaskRunner :=
  { tasks := r.tasks.map fun p => if p.1 = uuid then (p.1, msg) else p }

/-- One recorded call to the metadata DB, the container platform or the
control-plane create protocol. -/
inductive Event where
  | getService (cluster name : String)
  | getServiceAttr (uuid : String)
  | listServiceMembers (uuid : String)
  | getConfigFile (uuid : String) (fid : FileID)
  | createConfigFile (uuid : String) (fid : FileID) (md5 : String)
  | deleteConfigFile (uuid : String) (fid : FileID)
  | updateServiceMember (oldMember newMember : ServiceMember)
  | setServiceStatus (uuid : String) (status : ServiceStatus)
  | restartService (cluster name : String) (replicas : Int)
  | controlPlaneCreate (cluster name : String)
  | isServiceExist (cluster name : String)
  | containerCreate (uuid : String)
  | runContainerTask (cluster name : String)
  | getContainerServiceStatus (cluster name : String)
  | deleteService (cluster name : String)
  | listServices (cluster : String)
  deriving DecidableEq, Repr

instance {ε α : Type} [DecidableEq ε] [DecidableEq α] : DecidableEq (Except ε α) :=
  fun a b =>
    match a, b with
    | .ok x, .ok y => if h : x = y then .isTrue (by rw [h]) else .isFalse (by simp [h])
    | .error x, .error y => if h : x = y then .isTrue (by rw [h]) else .isFalse (by simp [h])
    | .ok _, .error _ => .isFalse (by simp)
    | .error _, .ok _ => .isFalse (by simp)

/-- Modelled from the spec: outcomes of the external collaborators that a run
may hit (container platform, control-plane create protocol, catalog init-task
generation, best-effort delete). The handlers consult these fields exactly
where the Go code performs the corresponding call. -/
structure Env where
  restartFails : Bool
  deleteConfigFails : Bool
  consulValidateOk : Bool
  redisInitTaskOk : Bool
  cpCreate : Except Err (String × DB)
  isServiceExistResult : Except Err Bool
  containerCreateFails : Bool
  getServiceStatusResult : Except Err (Int × Int)
  runTaskResult : Except Err String
  deriving DecidableEq, Repr

/-- The full mutable state a handler runs against. -/
structure World where
  db : DB
  runner : TaskRunner
  env : Env
  deriving DecidableEq, Repr

/-- Modelled from the spec: the per-catalog generator packages (section 4.4 and
4.6; catalog/mongodb, catalog/redis, catalog/consul, not under src). The server
embedding is parameterized by these probe / transform / file-selector functions
exactly as the Go code calls into the catalog packages. -/
structure Catalogs where
  IsMongoDBConfFile : String → Bool
  IsAuthEnabled : String → Bool
  EnableMongoDBAuth : String → String
  IsRedisConfFile : String → Bool
  IsClusterInfoFile : String → Bool
  NeedToEnableAuth : String → Bool
  NeedToSetClusterAnnounceIP : String → Bool
  EnableRedisAuth : String → String
  SetClusterAnnounceIP : String → String → String
  CreateClusterInfoFile : List String → ReplicaConfigFile
  IsBasicConfigFile : String → Bool
  ReplaceMemberName : String → List (String × String) → String

/-- The manage HTTP server constants (ManageHTTPServer fields) together with the
catalog packages it links against. -/
structure Srv where
  cluster : String
  region : String
  cats : Catalogs

/-- Modelled from the spec: dns.GenDNSName(memberName, domain) (not under src). -/
def GenDNSName (memberName domain : String) : String :=
  memberName ++ "." ++ domain

/-- Modelled from the spec: dns.GenDefaultDomainName(cluster) (not under src). -/
def GenDefaultDomainName (cluster : String) : String :=
  cluster ++ "-firecamp.com"

/-- Modelled from the spec: manage.ConvertToHTTPError maps typed errors to HTTP
codes (section 7): NotFound 404, ServiceExists 409, ConfigMismatch and internal
failures 500. -/
def ConvertToHTTPError : Err → String × Nat
  | .notFound => ("NotFound", 404)
  | .serviceExists => ("ServiceExists", 409)
  | .configMismatch => ("ConfigMismatch", 500)
  | .conditionFailed => ("InternalError", 500)
  | .internal => ("InternalError", 500)

/-- http.StatusText(http.StatusBadRequest). -/
def badRequest : String :=
  "Bad Request"

/-- The observable outcome of one HTTP handler: a 200 with a written JSON body,
a bare 200, an error status, or a Go runtime panic. -/
inductive HttpResult (α : Type) where
  | body (resp : α)
  | ok
  | fail (errmsg : String) (errcode : Nat)
  | panics
  deriving DecidableEq, Repr

/-- Adapts an internal (errmsg, errcode) pair to the handler outcome: ("", 200)
is success, anything else is the error. -/
def toHttpResult {α : Type} (r : String × Nat) : HttpResult α :=
  if r.2 = 200 then .ok else .fail r.1 r.2

/-- Result of an internal routine that may hit a Go nil / out-of-range panic. -/
inductive CRes (α : Type) where
  | ok (a : α)
  | err (e : Err)
  | panics
  deriving DecidableEq, Repr

/-- ServiceCommonRequest: every request body embeds (region, cluster, name). -/
structure ServiceCommonRequest where
  Region : String
  Cluster : String
  ServiceName : String
  deriving DecidableEq, Repr

/-- manage.CatalogCheckServiceInitRequest. -/
structure CatalogCheckServiceInitRequest where
  Service : ServiceCommonRequest
  ServiceType : CatalogServiceType
  Admin : String
  AdminPasswd : String
  Shards : Int
  ReplicasPerShard : Int
  deriving DecidableEq, Repr

/-- manage.CatalogCheckServiceInitResponse. -/
structure CatalogCheckServiceInitResponse where
  Initialized : Bool
  StatusMessage : String
  deriving DecidableEq, Repr

/-- manage.CatalogSetServiceInitRequest. -/
structure CatalogSetServiceInitRequest where
  Region : String
  Cluster : String
  ServiceName : String
  ServiceType : CatalogServiceType
  deriving DecidableEq, Repr

/-- manage.CatalogSetRedisInitRequest. -/
structure CatalogSetRedisInitRequest where
  Region : String
  Cluster : String
  ServiceName : String
  NodeIds : List String
  deriving DecidableEq, Repr

/-- Consul create options (replica count is all the embedding needs). -/
structure ConsulOptions where
  Replicas : Int
  deriving DecidableEq, Repr

/-- manage.CatalogCreateConsulRequest. -/
structure CatalogCreateConsulRequest where
  Service : ServiceCommonRequest
  Options : ConsulOptions
  deriving DecidableEq, Repr

/-- manage.CatalogCreateConsulResponse. -/
structure CatalogCreateConsulResponse where
  ConsulServerIPs : List String
  deriving DecidableEq, Repr

/-- manage.CreateServiceRequest (generic create, server.go). -/
structure CreateServiceRequest where
  Service : ServiceCommonRequest
  Replicas : Int
  ContainerImage : String
  ContainerPath : String
  Port : Int
  deriving DecidableEq, Repr

/-- manage.ListServiceRequest; Pref is the Go Prefix field. -/
structure ListServiceRequest where
  Region : String
  Cluster : String
  Pref : String
  deriving DecidableEq, Repr

/-- manage.RunTaskRequest. -/
structure RunTaskRequest where
  Service : ServiceCommonRequest
  TaskType : String
  ContainerImage : String
  deriving DecidableEq, Repr

/-- Scan of a member's config slots with their index, mirroring the Go
for-range loops that locate a target config file and break at the first match. -/
def findCfg (p : String → Bool) : List MemberConfig → Nat → Option (MemberConfig × Nat)
  | [], _ => none
  | c :: rest, i => if p c.FileName then some (c, i) else findCfg p rest (i + 1)

/-- In-place update of config slot i with the new file id and MD5
(the Go newConfigs[cfgIndex].FileID / FileMD5 assignments). -/
def setSlot (cfgs : List MemberConfig) (i : Nat) (fid : FileID) (md5 : String) :
    List MemberConfig :=
  match cfgs[i]? with
  | some c => cfgs.set i { c with FileID := fid, FileMD5 := md5 }
  | none => cfgs

/-- Modelled from the spec: the manageserver setServiceInitialized helper
(called by catalogservice.go but not under src): resolve the service by name
and flip its status to ACTIVE via ServiceRegistry.SetServiceStatus
(sections 4.2 and 4.6 step 5); returns the usual (errmsg, errcode) pair. -/
def setServiceInitialized (s : Srv) (w : World) (serviceName : String) :
    (String × Nat) × World × List Event :=
  match dbGetService w.db s.cluster serviceName with
  | .error e => (ConvertToHTTPError e, w, [Event.getService s.cluster serviceName])
  | .ok svc =>
    match dbSetServiceStatus w.db svc.ServiceUUID .active with
    | .error e =>
      (ConvertToHTTPError e, w,
        [Event.getService s.cluster serviceName,
         Event.setServiceStatus svc.ServiceUUID .active])
    | .ok db1 =>
      (("", 200), { w with db := db1 },
        [Event.getService s.cluster serviceName,
         Event.setServiceStatus svc.ServiceUUID .active])

/-- updateMemberConfig (catalogservice.go:1084): parse the old file's version,
create the next-version ConfigFile, CAS-update the member slot, then delete the
old file best-effort (a failure there is logged, not propagated). -/
def updateMemberConfig (s : Srv) (w : World) (member : ServiceMember)
    (cfgfile : ConfigFile) (cfgIndex : Nat) (newContent : String) :
    Except Err Unit × World × List Event :=
  let version := GetConfigFileVersion cfgfile.FileID
  let newFileID := GenMemberConfigFileID member.MemberName cfgfile.FileName (version + 1)
  let newcfgfile0 := UpdateConfigFile cfgfile newFileID newContent
  match CreateConfigFile w.db newcfgfile0 with
  | .error e =>
    (.error e, w, [Event.createConfigFile newcfgfile0.ServiceUUID newFileID newcfgfile0.FileMD5])
  | .ok (newcfgfile, db1) =>
    let newConfigs := setSlot (CopyMemberConfigs member.Configs) cfgIndex
        newcfgfile.FileID newcfgfile.FileMD5
    let newMember := UpdateServiceMemberConfigs member newConfigs
    match dbUpdateServiceMember db1 member newMember with
    | .error e =>
      (.error e, { w with db := db1 },
        [Event.createConfigFile newcfgfile0.ServiceUUID newFileID newcfgfile0.FileMD5,
         Event.updateServiceMember member newMember])
    | .ok db2 =>
      let db3 := if w.env.deleteConfigFails then db2
                 else dbDeleteConfigFile db2 cfgfile.ServiceUUID cfgfile.FileID
      (.ok (), { w with db := db3 },
        [Event.createConfigFile newcfgfile0.ServiceUUID newFileID newcfgfile0.FileMD5,
         Event.updateServiceMember member newMember,
         Event.deleteConfigFile cfgfile.ServiceUUID cfgfile.FileID])

/-- enableMongoDBAuth (catalogservice.go:835): fetch the config file; if auth is
already enabled return nil; otherwise enable auth and update the member config. -/
def enableMongoDBAuth (s : Srv) (w : World) (cfg : MemberConfig) (cfgIndex : Nat)
    (member : ServiceMember) : Except Err Unit × World × List Event :=
  match dbGetConfigFile w.db member.ServiceUUID cfg.FileID with
  | .error e => (.error e, w, [Event.getConfigFile member.ServiceUUID cfg.FileID])
  | .ok cfgfile =>
    if s.cats.IsAuthEnabled cfgfile.Content then
      (.ok (), w, [Event.getConfigFile member.ServiceUUID cfg.FileID])
    else
      let newContent := s.cats.EnableMongoDBAuth cfgfile.Content
      let u := updateMemberConfig s w member cfgfile cfgIndex newContent
      (u.1, u.2.1, Event.getConfigFile member.ServiceUUID cfg.FileID :: u.2.2)

/-- One member of the setMongoDBInit loop: locate the first mongod.conf slot
(skipping others) and enable auth on it; a member with no such slot is skipped. -/
def mongoMemberStep (s : Srv) (w : World) (member : ServiceMember) :
    Except Err Unit × World × List Event :=
  match findCfg s.cats.IsMongoDBConfFile member.Configs 0 with
  | none => (.ok (), w, [])
  | some (cfg, i) => enableMongoDBAuth s w cfg i member

/-- The sequential member loop of setMongoDBInit; an error aborts the loop. -/
def mongoMembersLoop (s : Srv) : World → List ServiceMember →
    Except Err Unit × World × List Event
  | w, [] => (.ok (), w, [])
  | w, m :: rest =>
    let u := mongoMemberStep s w m
    match u.1 with
    | .error e => (.error e, u.2.1, u.2.2)
    | .ok _ =>
      let t := mongoMembersLoop s u.2.1 rest
      (t.1, t.2.1, u.2.2 ++ t.2.2)

/-- setMongoDBInit (catalogservice.go:767): resolve service, attr and members;
enable auth on every member's mongod.conf sequentially; then restart all
containers; then set the service initialized. -/
def setMongoDBInit (s : Srv) (w : World) (req : CatalogSetServiceInitRequest) :
    (String × Nat) × World × List Event :=
  match dbGetService w.db s.cluster req.ServiceName with
  | .error e => (ConvertToHTTPError e, w, [Event.getService s.cluster req.ServiceName])
  | .ok service =>
    match dbGetServiceAttr w.db service.ServiceUUID with
    | .error e =>
      (ConvertToHTTPError e, w,
        [Event.getService s.cluster req.ServiceName,
         Event.getServiceAttr service.ServiceUUID])
    | .ok attr =>
      let members := membersOf w.db service.ServiceUUID
      let base := [Event.getService s.cluster req.ServiceName,
                   Event.getServiceAttr service.ServiceUUID,
                   Event.listServiceMembers service.ServiceUUID]
      let w1 := { w with
        runner := UpdateTaskStatusMsg w.runner service.ServiceUUID "enable auth for MongoDB" }
      let u := mongoMembersLoop s w1 members
      match u.1 with
      | .error e => (ConvertToHTTPError e, u.2.1, base ++ u.2.2)
      | .ok _ =>
        let w3 := { u.2.1 with
          runner := UpdateTaskStatusMsg u.2.1.runner service.ServiceUUID
            "restarting all MongoDB containers" }
        let evR := base ++ u.2.2 ++
          [Event.restartService s.cluster req.ServiceName attr.Replicas]
        if w3.env.restartFails then
          (ConvertToHTTPError .internal, w3, evR)
        else
          let r := setServiceInitialized s w3 req.ServiceName
          (r.1, r.2.1, evR ++ r.2.2)

/-- createRedisClusterFile (catalogservice.go:950): if the member already has a
cluster-info file, verify its MD5 against the newly computed content (mismatch
fails with ConfigMismatch, a match is a no-op returning the member); otherwise
create the file at version 0 and append a new MemberConfig slot via a CAS
ServiceMember update. -/
def createRedisClusterFile (s : Srv) (w : World) (member : ServiceMember)
    (cfg : ReplicaConfigFile) : Except Err ServiceMember × World × List Event :=
  match member.Configs.find? (fun c => s.cats.IsClusterInfoFile c.FileName) with
  | some c =>
    if c.FileMD5 ≠ GenMD5 cfg.Content then (.error .configMismatch, w, [])
    else (.ok member, w, [])
  | none =>
    let version : Int := 0
    let fileID := GenMemberConfigFileID member.MemberName cfg.FileName version
    let initcfgfile := CreateInitialConfigFile member.ServiceUUID fileID cfg.FileName
        cfg.FileMode cfg.Content
    match CreateConfigFile w.db initcfgfile with
    | .error e =>
      (.error e, w,
        [Event.createConfigFile member.ServiceUUID fileID initcfgfile.FileMD5])
    | .ok (cfgfile, db1) =>
      let config : MemberConfig := ⟨cfg.FileName, fileID, cfgfile.FileMD5⟩
      let newConfigs := CopyMemberConfigs member.Configs ++ [config]
      let newMember := UpdateServiceMemberConfigs member newConfigs
      match dbUpdateServiceMember db1 member newMember with
      | .error e =>
        (.error e, { w with db := db1 },
          [Event.createConfigFile member.ServiceUUID fileID initcfgfile.FileMD5,
           Event.updateServiceMember member newMember])
      | .ok db2 =>
        (.ok newMember, { w with db := db2 },
          [Event.createConfigFile member.ServiceUUID fileID initcfgfile.FileMD5,
           Event.updateServiceMember member newMember])

/-- updateRedisConfigs (catalogservice.go:1001): fetch the redis.conf file;
probe enable-auth and set-cluster-announce-ip; both false is a no-op, either
true triggers exactly one combined updateMemberConfig. -/
def updateRedisConfigs (s : Srv) (w : World) (cfg : MemberConfig) (cfgIndex : Nat)
    (member : ServiceMember) : Except Err Unit × World × List Event :=
  match dbGetConfigFile w.db member.ServiceUUID cfg.FileID with
  | .error e => (.error e, w, [Event.getConfigFile member.ServiceUUID cfg.FileID])
  | .ok cfgfile =>
    let enableAuth := s.cats.NeedToEnableAuth cfgfile.Content
    let setIP := s.cats.NeedToSetClusterAnnounceIP cfgfile.Content
    if !enableAuth && !setIP then
      (.ok (), w, [Event.getConfigFile member.ServiceUUID cfg.FileID])
    else
      let c1 := if enableAuth then s.cats.EnableRedisAuth cfgfile.Content else cfgfile.Content
      let newContent := if setIP then s.cats.SetClusterAnnounceIP c1 member.StaticIP else c1
      let u := updateMemberConfig s w member cfgfile cfgIndex newContent
      (u.1, u.2.1, Event.getConfigFile member.ServiceUUID cfg.FileID :: u.2.2)

/-- One member of the setRedisInit loop: create the cluster-info file, then
update the first redis.conf slot of the (possibly extended) member. -/
def redisMemberStep (s : Srv) (w : World) (cfg : ReplicaConfigFile)
    (member : ServiceMember) : Except Err Unit × World × List Event :=
  let u := createRedisClusterFile s w member cfg
  match u.1 with
  | .error e => (.error e, u.2.1, u.2.2)
  | .ok newMember =>
    match findCfg s.cats.IsRedisConfFile newMember.Configs 0 with
    | none => (.ok (), u.2.1, u.2.2)
    | some (c, i) =>
      let t := updateRedisConfigs s u.2.1 c i newMember
      (t.1, t.2.1, u.2.2 ++ t.2.2)

/-- The sequential member loop of setRedisInit; an error aborts the loop. -/
def redisMembersLoop (s : Srv) (cfg : ReplicaConfigFile) : World → List ServiceMember →
    Except Err Unit × World × List Event
  | w, [] => (.ok (), w, [])
  | w, m :: rest =>
    let u := redisMemberStep s w cfg m
    match u.1 with
    | .error e => (.error e, u.2.1, u.2.2)
    | .ok _ =>
      let t := redisMembersLoop s cfg u.2.1 rest
      (t.1, t.2.1, u.2.2 ++ t.2.2)

/-- setRedisInit (catalogservice.go:856): after the cluster/region check the
handler logs req.NodeIds[0] before any length check (an empty list is an
out-of-range panic); then it resolves service, attr and members, generates the
cluster-info content, runs the member loop, restarts all containers and sets
the service initialized. -/
def setRedisInit (s : Srv) (w : World) (req : CatalogSetRedisInitRequest) :
    HttpResult Unit × World × List Event :=
  if req.Cluster ≠ s.cluster ∨ req.Region ≠ s.region then
    (.fail badRequest 400, w, [])
  else
    match req.NodeIds.head? with
    | none => (.panics, w, [])
    | some _ =>
      match dbGetService w.db s.cluster req.ServiceName with
      | .error e =>
        (.fail (ConvertToHTTPError e).1 (ConvertToHTTPError e).2, w,
          [Event.getService s.cluster req.ServiceName])
      | .ok service =>
        match dbGetServiceAttr w.db service.ServiceUUID with
        | .error e =>
          (.fail (ConvertToHTTPError e).1 (ConvertToHTTPError e).2, w,
            [Event.getService s.cluster req.ServiceName,
             Event.getServiceAttr service.ServiceUUID])
        | .ok attr =>
          let members := membersOf w.db service.ServiceUUID
          let base := [Event.getService s.cluster req.ServiceName,
                       Event.getServiceAttr service.ServiceUUID,
                       Event.listServiceMembers service.ServiceUUID]
          let w1 := { w with
            runner := UpdateTaskStatusMsg w.runner service.ServiceUUID
              "create the member to Redis nodeID mapping for the Redis cluster" }
          let clusterInfoCfg := s.cats.CreateClusterInfoFile req.NodeIds
          let u := redisMembersLoop s clusterInfoCfg w1 members
          match u.1 with
          | .error e =>
            (.fail (ConvertToHTTPError e).1 (ConvertToHTTPError e).2, u.2.1, base ++ u.2.2)
          | .ok _ =>
            let w3 := { u.2.1 with
              runner := UpdateTaskStatusMsg u.2.1.runner service.ServiceUUID
                "restarting all containers" }
            let evR := base ++ u.2.2 ++
              [Event.restartService s.cluster req.ServiceName attr.Replicas]
            if w3.env.restartFails then
              (.fail (ConvertToHTTPError .internal).1 (ConvertToHTTPError .internal).2, w3, evR)
            else
              let r := setServiceInitialized s w3 req.ServiceName
              (toHttpResult r.1, r.2.1, evR ++ r.2.2)

/-- addMongoDBInitTask (catalogservice.go:227): build the init task options and
register the task with the runner (guarded insert). -/
def addMongoDBInitTask (s : Srv) (w : World) (req : ServiceCommonRequest)
    (serviceUUID : String) (replicas : Int) (admin adminPasswd : String) : World :=
  { w with runner := addInitTask w.runner serviceUUID }

/-- addCasInitTask (catalogservice.go:716). -/
def addCasInitTask (s : Srv) (w : World) (req : ServiceCommonRequest)
    (serviceUUID : String) : World :=
  { w with runner := addInitTask w.runner serviceUUID }

/-- addCouchDBInitTask (catalogservice.go:465). -/
def addCouchDBInitTask (s : Srv) (w : World) (req : ServiceCommonRequest)
    (serviceUUID : String) (replicas : Int) (admin adminPass : String) : World :=
  { w with runner := addInitTask w.runner serviceUUID }

/-- addRedisInitTask (catalogservice.go:405): rediscatalog.GenDefaultInitTaskRequest
may fail (outcome taken from the environment, the generator is not under src);
on success the task is registered with the runner. -/
def addRedisInitTask (s : Srv) (w : World) (req : ServiceCommonRequest)
    (serviceUUID : String) (shards replicasPerShard : Int) : Except Err World :=
  if w.env.redisInitTaskOk then
    .ok { w with runner := addInitTask w.runner serviceUUID }
  else
    .error .internal

/-- getCatalogServiceOp (catalogservice.go:63), the CheckServiceInit recovery
protocol: reject cluster/region mismatch; resolve the service; if a live init
task exists answer (false, its status message); otherwise inspect the attr
status: ACTIVE answers (true, ""), INITIALIZING re-submits the catalog's init
task (or immediately flips PG / ZooKeeper / Kafka to ACTIVE), anything else is
a BadRequest. -/
def getCatalogServiceOp (s : Srv) (w : World) (req : CatalogCheckServiceInitRequest) :
    HttpResult CatalogCheckServiceInitResponse × World × List Event :=
  if req.Service.Cluster ≠ s.cluster ∨ req.Service.Region ≠ s.region then
    (.fail badRequest 400, w, [])
  else
    match dbGetService w.db s.cluster req.Service.ServiceName with
    | .error e =>
      (.fail (ConvertToHTTPError e).1 (ConvertToHTTPError e).2, w,
        [Event.getService s.cluster req.Service.ServiceName])
    | .ok service =>
      match hasInitTask w.runner service.ServiceUUID with
      | (true, statusMsg) =>
        (.body ⟨false, statusMsg⟩, w, [Event.getService s.cluster req.Service.ServiceName])
      | (false, statusMsg) =>
        let ev1 := [Event.getService s.cluster req.Service.ServiceName,
                    Event.getServiceAttr service.ServiceUUID]
        match dbGetServiceAttr w.db service.ServiceUUID with
        | .error e =>
          (.fail (ConvertToHTTPError e).1 (ConvertToHTTPError e).2, w, ev1)
        | .ok attr =>
          match attr.ServiceStatus with
          | .active => (.body ⟨true, statusMsg⟩, w, ev1)
          | .initializing =>
            match req.ServiceType with
            | .mongodb =>
              let w1 := addMongoDBInitTask s w req.Service service.ServiceUUID
                attr.Replicas req.Admin req.AdminPasswd
              (.body ⟨false, statusMsg⟩, w1, ev1)
            | .postgresql =>
              let r := setServiceInitialized s w req.Service.ServiceName
              if r.1.2 ≠ 200 then (.fail r.1.1 r.1.2, r.2.1, ev1 ++ r.2.2)
              else (.body ⟨true, statusMsg⟩, r.2.1, ev1 ++ r.2.2)
            | .cassandra =>
              let w1 := addCasInitTask s w req.Service service.ServiceUUID
              (.body ⟨false, statusMsg⟩, w1, ev1)
            | .zookeeper =>
              let r := setServiceInitialized s w req.Service.ServiceName
              if r.1.2 ≠ 200 then (.fail r.1.1 r.1.2, r.2.1, ev1 ++ r.2.2)
              else (.body ⟨true, statusMsg⟩, r.2.1, ev1 ++ r.2.2)
            | .kafka =>
              let r := setServiceInitialized s w req.Service.ServiceName
              if r.1.2 ≠ 200 then (.fail r.1.1 r.1.2, r.2.1, ev1 ++ r.2.2)
              else (.body ⟨true, statusMsg⟩, r.2.1, ev1 ++ r.2.2)
            | .redis =>
              match addRedisInitTask s w req.Service service.ServiceUUID
                  req.Shards req.ReplicasPerShard with
              | .error e =>
                (.fail (ConvertToHTTPError e).1 (ConvertToHTTPError e).2, w, ev1)
              | .ok w1 => (.body ⟨false, statusMsg⟩, w1, ev1)
            | .couchdb =>
              let w1 := addCouchDBInitTask s w req.Service service.ServiceUUID
                attr.Replicas req.Admin req.AdminPasswd
              (.body ⟨false, statusMsg⟩, w1, ev1)
            | _ => (.fail badRequest 400, w, ev1)
          | _ => (.fail badRequest 400, w, ev1)

/-- catalogSetServiceInit (catalogservice.go:733): cluster/region check, then
dispatch on the service type; MongoDB runs the config mutator, Cassandra and
CouchDB just flip the status, anything else is BadRequest. -/
def catalogSetServiceInit (s : Srv) (w : World) (req : CatalogSetServiceInitRequest) :
    HttpResult Unit × World × List Event :=
  if req.Cluster ≠ s.cluster ∨ req.Region ≠ s.region then
    (.fail badRequest 400, w, [])
  else
    match req.ServiceType with
    | .mongodb =>
      let r := setMongoDBInit s w req
      (toHttpResult r.1, r.2.1, r.2.2)
    | .cassandra =>
      let r := setServiceInitialized s w req.ServiceName
      (toHttpResult r.1, r.2.1, r.2.2)
    | .couchdb =>
      let r := setServiceInitialized s w req.ServiceName
      (toHttpResult r.1, r.2.1, r.2.2)
    | _ => (.fail badRequest 400, w, [])

/-- updateConsulMemberConfig (catalogservice.go:1060): scan for the basic-config
slot; when no slot matches, cfg stays nil and the cfg.FileID dereference is a
nil-pointer panic; otherwise fetch the file, replace member DNS names by their
static IPs, and update the member config. -/
def updateConsulMemberConfig (s : Srv) (w : World) (member : ServiceMember)
    (memberips : List (String × String)) : CRes Unit × World × List Event :=
  match findCfg s.cats.IsBasicConfigFile member.Configs 0 with
  | none => (.panics, w, [])
  | some (cfg, cfgIndex) =>
    match dbGetConfigFile w.db member.ServiceUUID cfg.FileID with
    | .error e => (.err e, w, [Event.getConfigFile member.ServiceUUID cfg.FileID])
    | .ok cfgfile =>
      let newContent := s.cats.ReplaceMemberName cfgfile.Content memberips
      let u := updateMemberConfig s w member cfgfile cfgIndex newContent
      ((match u.1 with
        | .error e => CRes.err e
        | .ok _ => CRes.ok ()),
       u.2.1, Event.getConfigFile member.ServiceUUID cfg.FileID :: u.2.2)

/-- The sequential member loop of updateConsulConfigs. -/
def consulMembersLoop (s : Srv) (memberips : List (String × String)) :
    World → List ServiceMember → CRes Unit × World × List Event
  | w, [] => (.ok (), w, [])
  | w, m :: rest =>
    let u := updateConsulMemberConfig s w m memberips
    match u.1 with
    | .err e => (.err e, u.2.1, u.2.2)
    | .panics => (.panics, u.2.1, u.2.2)
    | .ok _ =>
      let t := consulMembersLoop s memberips u.2.1 rest
      (t.1, t.2.1, u.2.2 ++ t.2.2)

/-- updateConsulConfigs (catalogservice.go:1032): list the members, collect
serverips index-aligned with them, build the DNS-name-to-staticIP map and
rewrite every member's basic config. -/
def updateConsulConfigs (s : Srv) (w : World) (serviceUUID domain : String) :
    CRes (List String) × World × List Event :=
  let members := membersOf w.db serviceUUID
  let serverips := members.map (·.StaticIP)
  let memberips := members.map fun m => (GenDNSName m.MemberName domain, m.StaticIP)
  let u := consulMembersLoop s memberips w members
  ((match u.1 with
    | .ok _ => CRes.ok serverips
    | .err e => CRes.err e
    | .panics => CRes.panics),
   u.2.1, Event.listServiceMembers serviceUUID :: u.2.2)

/-- Modelled from the spec: the createContainerService helper (not under src;
section 4.3 step 2): if the container platform reports the service absent,
create it, otherwise skip; outcomes come from the environment. -/
def createContainerService (s : Srv) (w : World) (serviceName serviceUUID : String) :
    Except Err Unit × World × List Event :=
  match w.env.isServiceExistResult with
  | .error e => (.error e, w, [Event.isServiceExist s.cluster serviceName])
  | .ok true => (.ok (), w, [Event.isServiceExist s.cluster serviceName])
  | .ok false =>
    if w.env.containerCreateFails then
      (.error .internal, w,
        [Event.isServiceExist s.cluster serviceName, Event.containerCreate serviceUUID])
    else
      (.ok (), w,
        [Event.isServiceExist s.cluster serviceName, Event.containerCreate serviceUUID])

/-- createConsulService (catalogservice.go:482): cluster/region check, request
validation, control-plane create, then the member-config rewrite
(updateConsulConfigs), then the container-platform create, then set the
service initialized, and finally answer with the member static IPs. The
control-plane create (svc.CreateService, not under src) outcome comes from the
environment. -/
def createConsulService (s : Srv) (w : World) (req : CatalogCreateConsulRequest) :
    HttpResult CatalogCreateConsulResponse × World × List Event :=
  if req.Service.Cluster ≠ s.cluster ∨ req.Service.Region ≠ s.region then
    (.fail badRequest 400, w, [])
  else if !w.env.consulValidateOk then
    (.fail "InvalidRequest" 400, w, [])
  else
    let domain := GenDefaultDomainName s.cluster
    match w.env.cpCreate with
    | .error e =>
      (.fail (ConvertToHTTPError e).1 (ConvertToHTTPError e).2, w,
        [Event.controlPlaneCreate s.cluster req.Service.ServiceName])
    | .ok (serviceUUID, db1) =>
      let w1 := { w with db := db1 }
      let cpEv := [Event.controlPlaneCreate s.cluster req.Service.ServiceName]
      let u := updateConsulConfigs s w1 serviceUUID domain
      match u.1 with
      | .err e =>
        (.fail (ConvertToHTTPError e).1 (ConvertToHTTPError e).2, u.2.1, cpEv ++ u.2.2)
      | .panics => (.panics, u.2.1, cpEv ++ u.2.2)
      | .ok serverips =>
        let t := createContainerService s u.2.1 req.Service.ServiceName serviceUUID
        match t.1 with
        | .error e =>
          (.fail (ConvertToHTTPError e).1 (ConvertToHTTPError e).2, t.2.1,
            cpEv ++ u.2.2 ++ t.2.2)
        | .ok _ =>
          let r := setServiceInitialized s t.2.1 req.Service.ServiceName
          if r.1.1.length ≠ 0 then
            (.fail r.1.1 r.1.2, r.2.1, cpEv ++ u.2.2 ++ t.2.2 ++ r.2.2)
          else
            (.body ⟨serverips⟩, r.2.1, cpEv ++ u.2.2 ++ t.2.2 ++ r.2.2)

/-- setServiceInitialized handler of server.go:135 (package managehttpserver):
decode, cluster/region check, then svc.SetServiceInitialized. -/
def serverSetServiceInitialized (s : Srv) (w : World) (req : ServiceCommonRequest) :
    HttpResult Unit × World × List Event :=
  if req.Cluster ≠ s.cluster ∨ req.Region ≠ s.region then
    (.fail badRequest 400, w, [])
  else
    let r := setServiceInitialized s w req.ServiceName
    (toHttpResult r.1, r.2.1, r.2.2)

/-- createService (server.go:168): cluster/region/name check, control-plane
create, container existence check, container create if absent. -/
def createService (s : Srv) (w : World) (servicename : String) (req : CreateServiceRequest) :
    HttpResult Unit × World × List Event :=
  if req.Service.Cluster ≠ s.cluster ∨ req.Service.Region ≠ s.region ∨
      req.Service.ServiceName ≠ servicename then
    (.fail badRequest 400, w, [])
  else
    match w.env.cpCreate with
    | .error e =>
      (.fail (ConvertToHTTPError e).1 (ConvertToHTTPError e).2, w,
        [Event.controlPlaneCreate s.cluster req.Service.ServiceName])
    | .ok (serviceUUID, db1) =>
      let w1 := { w with db := db1 }
      let cpEv := [Event.controlPlaneCreate s.cluster req.Service.ServiceName]
      match w.env.isServiceExistResult with
      | .error e =>
        (.fail (ConvertToHTTPError e).1 (ConvertToHTTPError e).2, w1,
          cpEv ++ [Event.isServiceExist req.Service.Cluster req.Service.ServiceName])
      | .ok true =>
        (.ok, w1, cpEv ++ [Event.isServiceExist req.Service.Cluster req.Service.ServiceName])
      | .ok false =>
        if w.env.containerCreateFails then
          (.fail (ConvertToHTTPError .internal).1 (ConvertToHTTPError .internal).2, w1,
            cpEv ++ [Event.isServiceExist req.Service.Cluster req.Service.ServiceName,
                     Event.containerCreate serviceUUID])
        else
          (.ok, w1,
            cpEv ++ [Event.isServiceExist req.Service.Cluster req.Service.ServiceName,
                     Event.containerCreate serviceUUID])

/-- deleteService (server.go:274): cluster/region/name check, then the DB
delete. -/
def deleteService (s : Srv) (w : World) (servicename : String) (req : ServiceCommonRequest) :
    HttpResult Unit × World × List Event :=
  if req.Cluster ≠ s.cluster ∨ req.Region ≠ s.region ∨ req.ServiceName ≠ servicename then
    (.fail badRequest 400, w, [])
  else
    match dbDeleteService w.db s.cluster servicename with
    | .error e =>
      (.fail (ConvertToHTTPError e).1 (ConvertToHTTPError e).2, w,
        [Event.deleteService s.cluster servicename])
    | .ok db1 =>
      (.ok, { w with db := db1 }, [Event.deleteService s.cluster servicename])

/-- The attr-fetching loop of listServices over the prefix-filtered services. -/
def listServicesLoop (db : DB) (pre : String) :
    List Service → Except Err (List ServiceAttr) × List Event
  | [] => (.ok [], [])
  | svc :: rest =>
    if pre.length = 0 || pre.isPrefixOf svc.ServiceName then
      match dbGetServiceAttr db svc.ServiceUUID with
      | .error e => (.error e, [Event.getServiceAttr svc.ServiceUUID])
      | .ok attr =>
        match listServicesLoop db pre rest with
        | (.error e, evs) => (.error e, Event.getServiceAttr svc.ServiceUUID :: evs)
        | (.ok attrs, evs) => (.ok (attr :: attrs), Event.getServiceAttr svc.ServiceUUID :: evs)
    else listServicesLoop db pre rest

/-- listServices (server.go:301): cluster/region check, list the cluster's
services, fetch each matching service's attr. -/
def listServices (s : Srv) (w : World) (req : ListServiceRequest) :
    HttpResult (List ServiceAttr) × World × List Event :=
  if req.Cluster ≠ s.cluster ∨ req.Region ≠ s.region then
    (.fail badRequest 400, w, [])
  else
    let svcs := dbListServices w.db s.cluster
    match listServicesLoop w.db req.Pref svcs with
    | (.error e, evs) =>
      (.fail (ConvertToHTTPError e).1 (ConvertToHTTPError e).2, w,
        Event.listServices s.cluster :: evs)
    | (.ok attrs, evs) => (.body attrs, w, Event.listServices s.cluster :: evs)

/-- getServiceStatus (server.go:444): cluster/region check, then the container
platform status query. -/
def getServiceStatus (s : Srv) (w : World) (req : ServiceCommonRequest) :
    HttpResult (Int × Int) × World × List Event :=
  if req.Cluster ≠ s.cluster ∨ req.Region ≠ s.region then
    (.fail badRequest 400, w, [])
  else
    match w.env.getServiceStatusResult with
    | .error e =>
      (.fail (ConvertToHTTPError e).1 (ConvertToHTTPError e).2, w,
        [Event.getContainerServiceStatus req.Cluster req.ServiceName])
    | .ok st =>
      (.body st, w, [Event.getContainerServiceStatus req.Cluster req.ServiceName])

/-- runTask (server.go:489): cluster/region check, resolve the service, then
fire the container-platform task. -/
def runTask (s : Srv) (w : World) (req : RunTaskRequest) :
    HttpResult String × World × List Event :=
  if req.Service.Cluster ≠ s.cluster ∨ req.Service.Region ≠ s.region then
    (.fail badRequest 400, w, [])
  else
    match dbGetService w.db req.Service.Cluster req.Service.ServiceName with
    | .error e =>
      (.fail (ConvertToHTTPError e).1 (ConvertToHTTPError e).2, w,
        [Event.getService req.Service.Cluster req.Service.ServiceName])
    | .ok svc =>
      match w.env.runTaskResult with
      | .error e =>
        (.fail (ConvertToHTTPError e).1 (ConvertToHTTPError e).2, w,
          [Event.getService req.Service.Cluster req.Service.ServiceName,
           Event.runContainerTask req.Service.Cluster req.Service.ServiceName])
      | .ok taskID =>
        (.body taskID, w,
          [Event.getService req.Service.Cluster req.Service.ServiceName,
           Event.runContainerTask req.Service.Cluster req.Service.ServiceName])

/-! Concrete sample instances used to exercise the embedding on closed inputs. -/

/-- Replace every occurrence of a pattern in a string. -/
def replaceAllAux (pat rep : List Char) : Nat → List Char → List Char
  | _, [] => []
  | 0, s => s
  | fuel + 1, c :: rest =>
    if List.take pat.length (c :: rest) = pat then
      rep ++ replaceAllAux pat rep fuel (List.drop (pat.length - 1) rest)
    else
      c :: replaceAllAux pat rep fuel rest

def replaceAll (s pat rep : String) : String :=
  ⟨replaceAllAux pat.data rep.data s.data.length s.data⟩

/-- A concrete catalog-package model: probes and transforms over small marker
contents, with the cluster-info content being the comma-joined node ids and the
consul rewrite being textual replacement of DNS names by IPs. -/
def catsX : Catalogs where
  IsMongoDBConfFile := fun fn => fn == "mongod.conf"
  IsAuthEnabled := fun c => c == "authOn"
  EnableMongoDBAuth := fun _ => "authOn"
  IsRedisConfFile := fun fn => fn == "redis.conf"
  IsClusterInfoFile := fun fn => fn == "cluster.info"
  NeedToEnableAuth := fun c => c == "plain"
  NeedToSetClusterAnnounceIP := fun c => c == "plain" || c == "auth"
  EnableRedisAuth := fun _ => "auth"
  SetClusterAnnounceIP := fun c ip => c ++ "@" ++ ip
  CreateClusterInfoFile := fun ids => ⟨"cluster.info", 384, String.intercalate "," ids⟩
  IsBasicConfigFile := fun fn => fn == "basic_config.json"
  ReplaceMemberName := fun c ips => ips.foldl (fun acc p => replaceAll acc p.1 p.2) c

/-- Consul sample: first member, basic config at version 0 holding its DNS name. -/
def fidB1 : FileID := ⟨"m1", "basic_config.json", 0⟩

/-- Consul sample: second member's basic config id. -/
def fidB2 : FileID := ⟨"m2", "basic_config.json", 0⟩

/-- Consul sample: first member's basic config file. -/
def fB1 : ConfigFile :=
  ⟨"u-consul", fidB1, "basic_config.json", 420, "m1.c1-firecamp.com",
    GenMD5 "m1.c1-firecamp.com"⟩

/-- Consul sample: second member's basic config file. -/
def fB2 : ConfigFile :=
  ⟨"u-consul", fidB2, "basic_config.json", 420, "m2.c1-firecamp.com",
    GenMD5 "m2.c1-firecamp.com"⟩

/-- Consul sample: the two members with their basic-config slots. -/
def cm1 : ServiceMember :=
  ⟨"u-consul", "m1", "10.0.0.1", [⟨"basic_config.json", fidB1, fB1.FileMD5⟩]⟩

/-- Consul sample: second member. -/
def cm2 : ServiceMember :=
  ⟨"u-consul", "m2", "10.0.0.2", [⟨"basic_config.json", fidB2, fB2.FileMD5⟩]⟩

/-- Consul sample: the DB state right after the control-plane create. -/
def dbConsul : DB :=
  ⟨[(("c1", "cns1"), ⟨"u-consul", "cns1"⟩)],
   [("u-consul", ⟨"u-consul", "cns1", .creating, 2, "dom"⟩)],
   [("u-consul", [cm1, cm2])],
   [(("u-consul", fidB1), fB1), (("u-consul", fidB2), fB2)]⟩

/-- A fully successful environment; the control-plane create yields dbConsul. -/
def envOk : Env where
  restartFails := false
  deleteConfigFails := false
  consulValidateOk := true
  redisInitTaskOk := true
  cpCreate := .ok ("u-consul", dbConsul)
  isServiceExistResult := .ok false
  containerCreateFails := false
  getServiceStatusResult := .ok (3, 3)
  runTaskResult := .ok "task-1"

/-- The sample manage server: local cluster c1, region r1, catalog model catsX. -/
def srvX : Srv :=
  { cluster := "c1", region := "r1", cats := catsX }

/-- Redis sample: cluster-info fileID of member m1 at version 0. -/
def fidInfo0 : FileID := ⟨"m1", "cluster.info", 0⟩

/-- Redis sample: a member already carrying the cluster-info slot for n0,n1. -/
def mA : ServiceMember :=
  ⟨"u2a", "m1", "10.0.0.1", [⟨"cluster.info", fidInfo0, GenMD5 "n0,n1"⟩]⟩

/-- Redis sample: a member with no cluster-info slot yet. -/
def mC : ServiceMember := ⟨"u2c", "m1", "10.0.0.1", []⟩

/-- A world whose DB holds only member mC, for the fresh cluster-info create. -/
def wFresh : World :=
  ⟨⟨[], [], [("u2c", [mC])], []⟩, ⟨[]⟩, envOk⟩

/-- A world with an empty DB, for the member-local no-op cases. -/
def wPlain : World :=
  ⟨⟨[], [], [], []⟩, ⟨[]⟩, envOk⟩

/-- Redis sample: redis.conf fileID of member m1 at version 0. -/
def fidRC : FileID := ⟨"m1", "redis.conf", 0⟩

/-- Redis sample: a redis.conf whose auth and announce-ip are already set. -/
def fileRC : ConfigFile :=
  ⟨"u-r2", fidRC, "redis.conf", 420, "auth@10.0.0.1", GenMD5 "auth@10.0.0.1"⟩

/-- Redis sample: a member carrying both the cluster-info slot and the fully
initialized redis.conf, as after a successful first SetRedisInit run. -/
def mD : ServiceMember :=
  ⟨"u-r2", "m1", "10.0.0.1",
    [⟨"cluster.info", fidInfo0, GenMD5 "n0,n1"⟩, ⟨"redis.conf", fidRC, fileRC.FileMD5⟩]⟩

/-- Redis sample: the post-first-run DB of service rds2. -/
def dbR2 : DB :=
  ⟨[(("c1", "rds2"), ⟨"u-r2", "rds2"⟩)],
   [("u-r2", ⟨"u-r2", "rds2", .initializing, 1, "dom"⟩)],
   [("u-r2", [mD])],
   [(("u-r2", fidRC), fileRC)]⟩

/-- Redis sample: the post-first-run world of service rds2. -/
def wR2 : World := ⟨dbR2, ⟨[]⟩, envOk⟩

/-- Redis sample: a second SetRedisInit request with the same node ids. -/
def reqR2 : CatalogSetRedisInitRequest := ⟨"r1", "c1", "rds2", ["n0", "n1"]⟩

/-- The same Redis world but with a container platform whose RestartService
call fails. -/
def wR2rf : World := ⟨dbR2, ⟨[]⟩, { envOk with restartFails := true }⟩

/-- Redis probe-firing sample: a redis.conf that still needs auth enabled and
the announce ip set. -/
def fileRP : ConfigFile :=
  ⟨"u-p", fidRC, "redis.conf", 420, "plain", GenMD5 "plain"⟩

/-- Redis probe-firing sample: the member holding that file. -/
def mP : ServiceMember :=
  ⟨"u-p", "m1", "10.0.0.9", [⟨"redis.conf", fidRC, fileRP.FileMD5⟩]⟩

/-- Redis probe-firing sample world. -/
def wRP : World :=
  ⟨⟨[], [], [("u-p", [mP])], [(("u-p", fidRC), fileRP)]⟩, ⟨[]⟩, envOk⟩

/-- Redis sample: a member carrying only the first run's cluster-info slot. -/
def mE : ServiceMember :=
  ⟨"u-r3", "m1", "10.0.0.1", [⟨"cluster.info", fidInfo0, GenMD5 "n0,n1"⟩]⟩

/-- Redis sample: service rds3 after a first run with node ids n0,n1. -/
def dbR3 : DB :=
  ⟨[(("c1", "rds3"), ⟨"u-r3", "rds3"⟩)],
   [("u-r3", ⟨"u-r3", "rds3", .initializing, 1, "dom"⟩)],
   [("u-r3", [mE])],
   []⟩

/-- Redis sample: the world of service rds3. -/
def wR3 : World := ⟨dbR3, ⟨[]⟩, envOk⟩

/-- Redis sample: a retry with divergent node ids x0,x1. -/
def reqR3 : CatalogSetRedisInitRequest := ⟨"r1", "c1", "rds3", ["x0", "x1"]⟩

/-- CheckServiceInit sample DB: svc1 is ACTIVE, svc9 has a live init task,
svcBad is stuck in CREATING. -/
def dbCheck : DB :=
  ⟨[(("c1", "svc1"), ⟨"u1", "svc1"⟩), (("c1", "svc9"), ⟨"u9", "svc9"⟩),
    (("c1", "svcBad"), ⟨"u3", "svcBad"⟩)],
   [("u1", ⟨"u1", "svc1", .active, 3, "dom"⟩),
    ("u3", ⟨"u3", "svcBad", .creating, 3, "dom"⟩)],
   [], []⟩

/-- CheckServiceInit sample world; the runner holds a live task for u9. -/
def wCheck : World := ⟨dbCheck, ⟨[("u9", "under way")]⟩, envOk⟩

/-- CheckServiceInit sample request for the ACTIVE service. -/
def reqActive : CatalogCheckServiceInitRequest :=
  ⟨⟨"r1", "c1", "svc1"⟩, .postgresql, "a", "p", 0, 0⟩

/-- CheckServiceInit sample request for the service with a live task. -/
def reqTask : CatalogCheckServiceInitRequest :=
  ⟨⟨"r1", "c1", "svc9"⟩, .mongodb, "a", "p", 0, 0⟩

/-- CheckServiceInit sample request for the CREATING service. -/
def reqBad : CatalogCheckServiceInitRequest :=
  ⟨⟨"r1", "c1", "svcBad"⟩, .mongodb, "a", "p", 0, 0⟩

/-- Resume sample DB: four INITIALIZING services of different catalog types. -/
def dbInit : DB :=
  ⟨[(("c1", "pgs"), ⟨"u-pg", "pgs"⟩), (("c1", "mgs"), ⟨"u-mg", "mgs"⟩),
    (("c1", "rds"), ⟨"u-rd", "rds"⟩), (("c1", "cns"), ⟨"u-cn", "cns"⟩)],
   [("u-pg", ⟨"u-pg", "pgs", .initializing, 3, "dom"⟩),
    ("u-mg", ⟨"u-mg", "mgs", .initializing, 3, "dom"⟩),
    ("u-rd", ⟨"u-rd", "rds", .initializing, 6, "dom"⟩),
    ("u-cn", ⟨"u-cn", "cns", .initializing, 3, "dom"⟩)],
   [], []⟩

/-- Resume sample world: no live tasks. -/
def wInit : World := ⟨dbInit, ⟨[]⟩, envOk⟩

/-- MongoDB mutator sample: mongod.conf fileID of member m1 at version 0. -/
def fidMg0 : FileID := ⟨"m1", "mongod.conf", 0⟩

/-- MongoDB mutator sample: a mongod.conf with auth already enabled. -/
def fileMgAuth : ConfigFile :=
  ⟨"u3g", fidMg0, "mongod.conf", 420, "authOn", GenMD5 "authOn"⟩

/-- MongoDB mutator sample: member holding the already-enabled mongod.conf. -/
def mG : ServiceMember :=
  ⟨"u3g", "m1", "10.0.0.3", [⟨"mongod.conf", fidMg0, fileMgAuth.FileMD5⟩]⟩

/-- MongoDB mutator sample world. -/
def wG : World :=
  ⟨⟨[], [], [("u3g", [mG])], [(("u3g", fidMg0), fileMgAuth)]⟩, ⟨[]⟩, envOk⟩

/-- Consul no-op-probe sample: a basic config whose content is already the
static IP, so the replace transform leaves it unchanged. -/
def fileCFix : ConfigFile :=
  ⟨"u-c", ⟨"m1", "basic_config.json", 0⟩, "basic_config.json", 420, "10.0.0.1",
    GenMD5 "10.0.0.1"⟩

/-- Consul no-op-probe sample: the member holding that file. -/
def mH : ServiceMember :=
  ⟨"u-c", "m1", "10.0.0.1",
    [⟨"basic_config.json", ⟨"m1", "basic_config.json", 0⟩, fileCFix.FileMD5⟩]⟩

/-- Consul no-op-probe sample world. -/
def wCons : World :=
  ⟨⟨[], [], [("u-c", [mH])], [(("u-c", ⟨"m1", "basic_config.json", 0⟩), fileCFix)]⟩,
   ⟨[]⟩, envOk⟩

/-- Consul no-op-probe sample: the DNS-name-to-IP map. -/
def ipsH : List (String × String) := [("m1.c1-firecamp.com", "10.0.0.1")]

/-- MongoDB init sample: a mongod.conf with auth not yet enabled. -/
def fileMgPlain : ConfigFile :=
  ⟨"u-m4", ⟨"m1", "mongod.conf", 0⟩, "mongod.conf", 420, "plain", GenMD5 "plain"⟩

/-- MongoDB init sample: the member holding the plain mongod.conf. -/
def mM : ServiceMember :=
  ⟨"u-m4", "m1", "10.0.0.4", [⟨"mongod.conf", ⟨"m1", "mongod.conf", 0⟩, fileMgPlain.FileMD5⟩]⟩

/-- MongoDB init sample DB for service mgo. -/
def dbM4 : DB :=
  ⟨[(("c1", "mgo"), ⟨"u-m4", "mgo"⟩)],
   [("u-m4", ⟨"u-m4", "mgo", .initializing, 1, "dom"⟩)],
   [("u-m4", [mM])],
   [(("u-m4", ⟨"m1", "mongod.conf", 0⟩), fileMgPlain)]⟩

/-- MongoDB init sample world. -/
def wM4 : World := ⟨dbM4, ⟨[]⟩, envOk⟩

/-- MongoDB init sample request. -/
def reqM4 : CatalogSetServiceInitRequest := ⟨"r1", "c1", "mgo", .mongodb⟩

/-- updateMemberConfig sample: the old config file at version 2. -/
def fileU5 : ConfigFile :=
  ⟨"u5", ⟨"m1", "f.conf", 2⟩, "f.conf", 420, "old", GenMD5 "old"⟩

/-- updateMemberConfig sample: the member whose slot 0 references it. -/
def mF : ServiceMember :=
  ⟨"u5", "m1", "10.0.0.5", [⟨"f.conf", ⟨"m1", "f.conf", 2⟩, fileU5.FileMD5⟩]⟩

/-- updateMemberConfig sample world. -/
def wU5 : World :=
  ⟨⟨[], [], [("u5", [mF])], [(("u5", ⟨"m1", "f.conf", 2⟩), fileU5)]⟩, ⟨[]⟩, envOk⟩

/-- Consul create sample: the create request for service cns1. -/
def reqConsul : CatalogCreateConsulRequest := ⟨⟨"r1", "c1", "cns1"⟩, ⟨2⟩⟩

/-- Consul create sample: the starting world (the control-plane create swaps in
dbConsul). -/
def wConsul : World := ⟨⟨[], [], [], []⟩, ⟨[]⟩, envOk⟩

/-- Consul create sample: the DNS-name-to-IP map updateConsulConfigs builds. -/
def ipsC : List (String × String) :=
  (membersOf dbConsul "u-consul").map fun m =>
    (GenDNSName m.MemberName (GenDefaultDomainName srvX.cluster), m.StaticIP)

/-- Consul create sample: the world after the member-config rewrite loop. -/
def lwC : World :=
  (consulMembersLoop srvX ipsC { wConsul with db := dbConsul }
    (membersOf dbConsul "u-consul")).2.1

/-- Consul create sample: the events of the member-config rewrite loop. -/
def levsC : List Event :=
  (consulMembersLoop srvX ipsC { wConsul with db := dbConsul }
    (membersOf dbConsul "u-consul")).2.2

/-- A member with no basic-config slot at all, for the nil-dereference case. -/
def mNoB : ServiceMember :=
  ⟨"u-x", "m1", "10.0.0.9", [⟨"other.conf", ⟨"m1", "other.conf", 0⟩, "m"⟩]⟩

/-- Is the event a container restart call. -/
def isRestartEv : Event → Bool
  | .restartService _ _ _ => true
  | _ => false

/-- Is the event a SetServiceStatus(ACTIVE) call. -/
def isSetActiveEv : Event → Bool
  | .setServiceStatus _ .active => true
  | _ => false

/-- Is the event a member-config write (config-file create / member CAS update /
config-file delete). -/
def isCfgWriteEv : Event → Bool
  | .updateServiceMember _ _ => true
  | .createConfigFile _ _ _ => true
  | .deleteConfigFile _ _ => true
  | _ => false

/-- Is the event part of the create protocol proper (control-plane create or
container-platform existence check / create). -/
def isCreatePhaseEv : Event → Bool
  | .controlPlaneCreate _ _ => true
  | .isServiceExist _ _ => true
  | .containerCreate _ => true
  | _ => false

/-- Is the event one a config mutator may not emit: a restart, a status flip or
a create-protocol call. -/
def isMutatorExternalEv (e : Event) : Bool :=
  isRestartEv e || isSetActiveEv e || isCreatePhaseEv e

/-- The combined new redis.conf content built by updateRedisConfigs when at
least one probe fires: enable auth if needed, then set the cluster announce ip
if needed, in one pass. -/
def redisNewContent (s : Srv) (member : ServiceMember) (f : ConfigFile) : String :=
  let c1 := if s.cats.NeedToEnableAuth f.Content then s.cats.EnableRedisAuth f.Content
            else f.Content
  if s.cats.NeedToSetClusterAnnounceIP f.Content then
    s.cats.SetClusterAnnounceIP c1 member.StaticIP
  else c1

/-- The updated member produced by updateMemberConfig: slot cfgIndex now points
at the next-version fileID with the new content's MD5. -/
def umcNewMember (member : ServiceMember) (cfgfile : ConfigFile) (cfgIndex : Nat)
    (newContent : String) : ServiceMember :=
  UpdateServiceMemberConfigs member
    (setSlot (CopyMemberConfigs member.Configs) cfgIndex
      (GenMemberConfigFileID member.MemberName cfgfile.FileName
        (GetConfigFileVersion cfgfile.FileID + 1))
      (GenMD5 newContent))

/-- The DB state right after updateMemberConfig's create + CAS update (before
the best-effort delete of the old file). -/
def umcDb2 (w : World) (member : ServiceMember) (cfgfile : ConfigFile) (cfgIndex : Nat)
    (newContent : String) : DB :=
  { services := w.db.services
    attrs := w.db.attrs
    members := aset w.db.members member.ServiceUUID
      ((membersOf w.db member.ServiceUUID).map
        fun m => if m.MemberName = member.MemberName then
          umcNewMember member cfgfile cfgIndex newContent else m)
    configFiles := aset w.db.configFiles
      (cfgfile.ServiceUUID,
        GenMemberConfigFileID member.MemberName cfgfile.FileName
          (GetConfigFileVersion cfgfile.FileID + 1))
      (UpdateConfigFile cfgfile
        (GenMemberConfigFileID member.MemberName cfgfile.FileName
          (GetConfigFileVersion cfgfile.FileID + 1)) newContent) }

/-- The member extended with the freshly created cluster-info slot
(createRedisClusterFile, fresh path). -/
def crcfNewMember (member : ServiceMember) (cfg : ReplicaConfigFile) : ServiceMember :=
  UpdateServiceMemberConfigs member
    (CopyMemberConfigs member.Configs ++
      [⟨cfg.FileName, GenMemberConfigFileID member.MemberName cfg.FileName 0,
        GenMD5 cfg.Content⟩])

/-- The DB after createRedisClusterFile created the version-0 cluster-info file
and CAS-updated the member. -/
def crcfDb2 (w : World) (member : ServiceMember) (cfg : ReplicaConfigFile) : DB :=
  { services := w.db.services
    attrs := w.db.attrs
    members := aset w.db.members member.ServiceUUID
      ((membersOf w.db member.ServiceUUID).map
        fun m => if m.MemberName = member.MemberName then crcfNewMember member cfg else m)
    configFiles := aset w.db.configFiles
      (member.ServiceUUID, GenMemberConfigFileID member.MemberName cfg.FileName 0)
      (CreateInitialConfigFile member.ServiceUUID
        (GenMemberConfigFileID member.MemberName cfg.FileName 0) cfg.FileName
        cfg.FileMode cfg.Content) }

/- ————————————————————————————————————————————————————————————————————————
   Helper lemmas.
   ———————————————————————————————————————————————————————————————————————— -/

theorem alookup_aset_self {α β : Type} [DecidableEq α] (l : List (α × β)) (k : α) (v : β) :
    alookup (aset l k v) k = some v := by
  induction l with
  | nil => simp [aset, alookup]
  | cons p rest ih =>
    by_cases h : p.1 = k
    · simp [aset, h, alookup]
    · simp [aset, h, alookup, ih]

theorem alookup_aset_of_ne {α β : Type} [DecidableEq α] {k k' : α} (h : k ≠ k')
    (l : List (α × β)) (v : β) : alookup (aset l k v) k' = alookup l k' := by
  induction l with
  | nil => simp [aset, alookup, h]
  | cons p rest ih =>
    by_cases hp : p.1 = k
    · simp [aset, hp, alookup, h]
    · simp only [aset, hp, if_false, alookup]
      by_cases hp' : p.1 = k'
      · simp [hp']
      · simp [hp', ih]

theorem alookup_aerase_self {α β : Type} [DecidableEq α] (l : List (α × β)) (k : α) :
    alookup (aerase l k) k = none := by
  induction l with
  | nil => rfl
  | cons p rest ih =>
    obtain ⟨a, b⟩ := p
    by_cases hp : a = k
    · simpa [aerase, hp] using ih
    · simp [aerase, alookup, hp, ih]

theorem alookup_aerase_of_ne {α β : Type} [DecidableEq α] {k k' : α} (h : k ≠ k')
    (l : List (α × β)) : alookup (aerase l k) k' = alookup l k' := by
  induction l with
  | nil => rfl
  | cons p rest ih =>
    obtain ⟨a, b⟩ := p
    by_cases hp : a = k
    · have hp' : ¬a = k' := fun hh => h (hp.symm.trans hh)
      simp [aerase, alookup, hp, hp', ih, h]
    · by_cases hq : a = k'
      · simp [aerase, alookup, hp, hq, Ne.symm h]
      · simp [aerase, alookup, hp, hq, ih]

theorem findCfg_eq_none {p : String → Bool} {cfgs : List MemberConfig}
    (h : ∀ c ∈ cfgs, p c.FileName = false) : ∀ i, findCfg p cfgs i = none := by
  induction cfgs with
  | nil => intro i; rfl
  | cons c rest ih =>
    intro i
    have hc := h c (by simp)
    simp only [findCfg, hc, Bool.false_eq_true, if_false]
    exact ih (fun c hc => h c (by simp [hc])) (i + 1)

theorem toHttpResult_ne_panics {α : Type} (r : String × Nat) :
    (toHttpResult r : HttpResult α) ≠ .panics := by
  unfold toHttpResult
  split <;> simp

theorem find?_map_update (ms : List ServiceMember) (old new : ServiceMember)
    (hname : new.MemberName = old.MemberName)
    (h : ms.find? (fun m => decide (m.MemberName = old.MemberName)) = some old) :
    (ms.map fun m => if m.MemberName = old.MemberName then new else m).find?
      (fun m => decide (m.MemberName = old.MemberName)) = some new := by
  induction ms with
  | nil => simp at h
  | cons m rest ih =>
    by_cases hm : m.MemberName = old.MemberName
    · rw [List.find?_cons_of_pos _ (by simp [hm])] at h
      injection h with h
      subst h
      rw [List.map_cons, if_pos hm]
      exact List.find?_cons_of_pos _ (by simp [hname, hm])
    · rw [List.find?_cons_of_neg _ (by simp [hm])] at h
      rw [List.map_cons, if_neg hm,
        List.find?_cons_of_neg _ (by simp [hm])]
      exact ih h

theorem dbGetServiceAttr_ok_alookup {db : DB} {u : String} {a : ServiceAttr}
    (h : dbGetServiceAttr db u = .ok a) : alookup db.attrs u = some a := by
  unfold dbGetServiceAttr at h
  rcases hl : alookup db.attrs u with _ | a'
  · rw [hl] at h; exact absurd h (by simp)
  · rw [hl] at h
    injection h with h2
    exact congrArg some h2

theorem mutatorExternal_parts {e : Event} (h : isMutatorExternalEv e = false) :
    isRestartEv e = false ∧ isSetActiveEv e = false ∧ isCreatePhaseEv e = false := by
  unfold isMutatorExternalEv at h
  simp only [Bool.or_eq_false_iff] at h
  exact ⟨h.1.1, h.1.2, h.2⟩

/-! Environment preservation: the internal mutator routines never touch Env. -/

theorem updateMemberConfig_env (s : Srv) (w : World) (member : ServiceMember)
    (cfgfile : ConfigFile) (cfgIndex : Nat) (newContent : String) :
    (updateMemberConfig s w member cfgfile cfgIndex newContent).2.1.env = w.env := by
  unfold updateMemberConfig
  dsimp only
  split
  · rfl
  · split <;> rfl

theorem enableMongoDBAuth_env (s : Srv) (w : World) (cfg : MemberConfig) (cfgIndex : Nat)
    (member : ServiceMember) :
    (enableMongoDBAuth s w cfg cfgIndex member).2.1.env = w.env := by
  unfold enableMongoDBAuth
  rcases hget : dbGetConfigFile w.db member.ServiceUUID cfg.FileID with e | cfgfile
  · rfl
  · dsimp only
    split
    · rfl
    · exact updateMemberConfig_env s w member cfgfile cfgIndex _

theorem mongoMemberStep_env (s : Srv) (w : World) (m : ServiceMember) :
    (mongoMemberStep s w m).2.1.env = w.env := by
  unfold mongoMemberStep
  split
  · rfl
  · exact enableMongoDBAuth_env s w _ _ m

theorem mongoMembersLoop_env (s : Srv) :
    ∀ (ms : List ServiceMember) (w : World), (mongoMembersLoop s w ms).2.1.env = w.env := by
  intro ms
  induction ms with
  | nil => intro w; rfl
  | cons m rest ih =>
    intro w
    unfold mongoMembersLoop
    dsimp only
    rcases hr : (mongoMemberStep s w m).1 with e | u
    · exact mongoMemberStep_env s w m
    · exact (ih _).trans (mongoMemberStep_env s w m)

theorem createRedisClusterFile_env (s : Srv) (w : World) (member : ServiceMember)
    (cfg : ReplicaConfigFile) :
    (createRedisClusterFile s w member cfg).2.1.env = w.env := by
  unfold createRedisClusterFile
  split
  · split <;> rfl
  · dsimp only
    split
    · rfl
    · split <;> rfl

theorem updateRedisConfigs_env (s : Srv) (w : World) (cfg : MemberConfig) (cfgIndex : Nat)
    (member : ServiceMember) :
    (updateRedisConfigs s w cfg cfgIndex member).2.1.env = w.env := by
  unfold updateRedisConfigs
  rcases hget : dbGetConfigFile w.db member.ServiceUUID cfg.FileID with e | cfgfile
  · rfl
  · dsimp only
    split
    · rfl
    · exact updateMemberConfig_env s w member cfgfile cfgIndex _

theorem redisMemberStep_env (s : Srv) (w : World) (cfg : ReplicaConfigFile)
    (m : ServiceMember) :
    (redisMemberStep s w cfg m).2.1.env = w.env := by
  unfold redisMemberStep
  dsimp only
  rcases hc : (createRedisClusterFile s w m cfg).1 with e | nm
  · exact createRedisClusterFile_env s w m cfg
  · dsimp only
    rcases hf : findCfg s.cats.IsRedisConfFile nm.Configs 0 with _ | ⟨c, i⟩
    · exact createRedisClusterFile_env s w m cfg
    · dsimp only
      exact (updateRedisConfigs_env s _ c i nm).trans (createRedisClusterFile_env s w m cfg)

theorem redisMembersLoop_env (s : Srv) (cfg : ReplicaConfigFile) :
    ∀ (ms : List ServiceMember) (w : World), (redisMembersLoop s cfg w ms).2.1.env = w.env := by
  intro ms
  induction ms with
  | nil => intro w; rfl
  | cons m rest ih =>
    intro w
    unfold redisMembersLoop
    dsimp only
    rcases hr : (redisMemberStep s w cfg m).1 with e | u
    · exact redisMemberStep_env s w cfg m
    · exact (ih _).trans (redisMemberStep_env s w cfg m)

/-! Event classification: the mutator internals emit no restart, no status flip
and no create-protocol event. -/

theorem updateMemberConfig_events (s : Srv) (w : World) (member : ServiceMember)
    (cfgfile : ConfigFile) (cfgIndex : Nat) (newContent : String) :
    ∀ e ∈ (updateMemberConfig s w member cfgfile cfgIndex newContent).2.2,
      isMutatorExternalEv e = false := by
  unfold updateMemberConfig
  dsimp only
  split
  · intro e he
    simp only [List.mem_singleton] at he
    subst he
    rfl
  · split
    · intro e he
      simp only [List.mem_cons, List.not_mem_nil, or_false] at he
      rcases he with rfl | rfl <;> rfl
    · intro e he
      simp only [List.mem_cons, List.not_mem_nil, or_false] at he
      rcases he with rfl | rfl | rfl <;> rfl

theorem enableMongoDBAuth_events (s : Srv) (w : World) (cfg : MemberConfig) (cfgIndex : Nat)
    (member : ServiceMember) :
    ∀ e ∈ (enableMongoDBAuth s w cfg cfgIndex member).2.2,
      isMutatorExternalEv e = false := by
  unfold enableMongoDBAuth
  rcases hget : dbGetConfigFile w.db member.ServiceUUID cfg.FileID with er | cfgfile
  · intro e he
    simp only [List.mem_singleton] at he
    subst he
    rfl
  · dsimp only
    split
    · intro e he
      simp only [List.mem_singleton] at he
      subst he
      rfl
    · intro e he
      dsimp only at he
      rw [List.mem_cons] at he
      rcases he with rfl | he
      · rfl
      · exact updateMemberConfig_events s w member cfgfile cfgIndex _ e he

theorem mongoMemberStep_events (s : Srv) (w : World) (m : ServiceMember) :
    ∀ e ∈ (mongoMemberStep s w m).2.2, isMutatorExternalEv e = false := by
  unfold mongoMemberStep
  split
  · intro e he
    simp at he
  · exact enableMongoDBAuth_events s w _ _ m

theorem mongoMembersLoop_events (s : Srv) :
    ∀ (ms : List ServiceMember) (w : World),
      ∀ e ∈ (mongoMembersLoop s w ms).2.2, isMutatorExternalEv e = false := by
  intro ms
  induction ms with
  | nil => intro w e he; simp [mongoMembersLoop] at he
  | cons m rest ih =>
    intro w e he
    unfold mongoMembersLoop at he
    dsimp only at he
    rcases hr : (mongoMemberStep s w m).1 with er | u
    · rw [hr] at he
      dsimp only at he
      exact mongoMemberStep_events s w m e he
    · rw [hr] at he
      dsimp only at he
      rw [List.mem_append] at he
      rcases he with he | he
      · exact mongoMemberStep_events s w m e he
      · exact ih _ e he

theorem createRedisClusterFile_events (s : Srv) (w : World) (member : ServiceMember)
    (cfg : ReplicaConfigFile) :
    ∀ e ∈ (createRedisClusterFile s w member cfg).2.2,
      isMutatorExternalEv e = false := by
  unfold createRedisClusterFile
  split
  · split <;> (intro e he; simp at he)
  · dsimp only
    split
    · intro e he
      simp only [List.mem_singleton] at he
      subst he
      rfl
    · split <;>
        (intro e he
         simp only [List.mem_cons, List.not_mem_nil, or_false] at he
         rcases he with rfl | rfl <;> rfl)

theorem updateRedisConfigs_events (s : Srv) (w : World) (cfg : MemberConfig) (cfgIndex : Nat)
    (member : ServiceMember) :
    ∀ e ∈ (updateRedisConfigs s w cfg cfgIndex member).2.2,
      isMutatorExternalEv e = false := by
  unfold updateRedisConfigs
  rcases hget : dbGetConfigFile w.db member.ServiceUUID cfg.FileID with er | cfgfile
  · intro e he
    simp only [List.mem_singleton] at he
    subst he
    rfl
  · dsimp only
    split
    · intro e he
      simp only [List.mem_singleton] at he
      subst he
      rfl
    · intro e he
      dsimp only at he
      rw [List.mem_cons] at he
      rcases he with rfl | he
      · rfl
      · exact updateMemberConfig_events s w member cfgfile cfgIndex _ e he

theorem redisMemberStep_events (s : Srv) (w : World) (cfg : ReplicaConfigFile)
    (m : ServiceMember) :
    ∀ e ∈ (redisMemberStep s w cfg m).2.2, isMutatorExternalEv e = false := by
  unfold redisMemberStep
  dsimp only
  intro e he
  rcases hc : (createRedisClusterFile s w m cfg).1 with er | nm
  · rw [hc] at he
    dsimp only at he
    exact createRedisClusterFile_events s w m cfg e he
  · rw [hc] at he
    dsimp only at he
    rcases hf : findCfg s.cats.IsRedisConfFile nm.Configs 0 with _ | ⟨c, i⟩
    · rw [hf] at he
      dsimp only at he
      exact createRedisClusterFile_events s w m cfg e he
    · rw [hf] at he
      dsimp only at he
      rw [List.mem_append] at he
      rcases he with he | he
      · exact createRedisClusterFile_events s w m cfg e he
      · exact updateRedisConfigs_events s _ c i nm e he

theorem redisMembersLoop_events (s : Srv) (cfg : ReplicaConfigFile) :
    ∀ (ms : List ServiceMember) (w : World),
      ∀ e ∈ (redisMembersLoop s cfg w ms).2.2, isMutatorExternalEv e = false := by
  intro ms
  induction ms with
  | nil => intro w e he; simp [redisMembersLoop] at he
  | cons m rest ih =>
    intro w e he
    unfold redisMembersLoop at he
    dsimp only at he
    rcases hr : (redisMemberStep s w cfg m).1 with er | u
    · rw [hr] at he
      dsimp only at he
      exact redisMemberStep_events s w cfg m e he
    · rw [hr] at he
      dsimp only at he
      rw [List.mem_append] at he
      rcases he with he | he
      · exact redisMemberStep_events s w cfg m e he
      · exact ih _ e he

theorem updateConsulMemberConfig_events (s : Srv) (w : World) (member : ServiceMember)
    (memberips : List (String × String)) :
    ∀ e ∈ (updateConsulMemberConfig s w member memberips).2.2,
      isMutatorExternalEv e = false := by
  unfold updateConsulMemberConfig
  split
  · intro e he
    simp at he
  · rename_i cfg cfgIndex heq
    rcases hget : dbGetConfigFile w.db member.ServiceUUID cfg.FileID with er | cfgfile
    · intro e he
      simp only [List.mem_singleton] at he
      subst he
      rfl
    · intro e he
      dsimp only at he
      rw [List.mem_cons] at he
      rcases he with rfl | he
      · rfl
      · exact updateMemberConfig_events s w member cfgfile cfgIndex _ e he

theorem consulMembersLoop_events (s : Srv) (memberips : List (String × String)) :
    ∀ (ms : List ServiceMember) (w : World),
      ∀ e ∈ (consulMembersLoop s memberips w ms).2.2, isMutatorExternalEv e = false := by
  intro ms
  induction ms with
  | nil => intro w e he; simp [consulMembersLoop] at he
  | cons m rest ih =>
    intro w e he
    unfold consulMembersLoop at he
    dsimp only at he
    rcases hr : (updateConsulMemberConfig s w m memberips).1 with u | er
    · rw [hr] at he
      dsimp only at he
      rw [List.mem_append] at he
      rcases he with he | he
      · exact updateConsulMemberConfig_events s w m memberips e he
      · exact ih _ e he
    · rw [hr] at he
      dsimp only at he
      exact updateConsulMemberConfig_events s w m memberips e he
    · rw [hr] at he
      dsimp only at he
      exact updateConsulMemberConfig_events s w m memberips e he

theorem setServiceInitialized_cfgwrite (s : Srv) (w : World) (name : String) :
    ∀ e ∈ (setServiceInitialized s w name).2.2,
      isCfgWriteEv e = false ∧ isCreatePhaseEv e = false := by
  unfold setServiceInitialized
  split
  · intro e he
    simp only [List.mem_singleton] at he
    subst he
    exact ⟨rfl, rfl⟩
  · split <;>
      (intro e he
       simp only [List.mem_cons, List.not_mem_nil, or_false] at he
       rcases he with rfl | rfl <;> exact ⟨rfl, rfl⟩)

/-- Characterization of a successful setServiceInitialized: the status of the
resolved service's attr is flipped to ACTIVE. -/
theorem setServiceInitialized_eq (s : Srv) (w : World) (name : String)
    (svc : Service) (attr : ServiceAttr)
    (hsvc : dbGetService w.db s.cluster name = .ok svc)
    (hattr : alookup w.db.attrs svc.ServiceUUID = some attr) :
    setServiceInitialized s w name =
      (("", 200),
       { w with db := { w.db with
           attrs := aset w.db.attrs svc.ServiceUUID { attr with ServiceStatus := .active } } },
       [Event.getService s.cluster name, Event.setServiceStatus svc.ServiceUUID .active]) := by
  unfold setServiceInitialized dbSetServiceStatus
  rw [hsvc]
  dsimp only
  rw [hattr]

/- ————————————————————————————————————————————————————————————————————————
   C5. updateMemberConfig: version bump, CAS slot update, best-effort delete.
   ———————————————————————————————————————————————————————————————————————— -/

theorem updateMemberConfig_eq (s : Srv) (w : World) (member : ServiceMember)
    (cfgfile : ConfigFile) (cfgIndex : Nat) (newContent : String)
    (hAbsent : alookup w.db.configFiles
      (cfgfile.ServiceUUID,
        GenMemberConfigFileID member.MemberName cfgfile.FileName
          (GetConfigFileVersion cfgfile.FileID + 1)) = none)
    (hCAS : findMember w.db member.ServiceUUID member.MemberName = some member) :
    updateMemberConfig s w member cfgfile cfgIndex newContent =
      (.ok (),
       { w with db := if w.env.deleteConfigFails then umcDb2 w member cfgfile cfgIndex newContent
                      else dbDeleteConfigFile (umcDb2 w member cfgfile cfgIndex newContent)
                        cfgfile.ServiceUUID cfgfile.FileID },
       [Event.createConfigFile cfgfile.ServiceUUID
          (GenMemberConfigFileID member.MemberName cfgfile.FileName
            (GetConfigFileVersion cfgfile.FileID + 1)) (GenMD5 newContent),
        Event.updateServiceMember member (umcNewMember member cfgfile cfgIndex newContent),
        Event.deleteConfigFile cfgfile.ServiceUUID cfgfile.FileID]) := by
  have hCAS' : ((alookup w.db.members member.ServiceUUID).getD []).find?
      (fun m => decide (m.MemberName = member.MemberName)) = some member := hCAS
  unfold updateMemberConfig CreateConfigFile dbUpdateServiceMember
  dsimp only [UpdateConfigFile, membersOf]
  rw [hAbsent]
  dsimp only [membersOf]
  rw [hCAS']
  dsimp only
  rw [if_pos rfl]
  rfl

/-- C5: updateMemberConfig parses the version embedded in the old fileID,
creates a new ConfigFile at GenMemberConfigFileID(memberName, fileName,
oldVersion+1), CAS-updates the member's slot to the new fileID and MD5, then
deletes the old ConfigFile best-effort: a delete failure is not propagated and
the routine still returns success. -/
theorem updateMemberConfigSpec (s : Srv) (w : World) (member : ServiceMember)
    (cfgfile : ConfigFile) (cfgIndex : Nat) (newContent : String)
    (hAbsent : alookup w.db.configFiles
      (cfgfile.ServiceUUID,
        GenMemberConfigFileID member.MemberName cfgfile.FileName
          (GetConfigFileVersion cfgfile.FileID + 1)) = none)
    (hCAS : findMember w.db member.ServiceUUID member.MemberName = some member) :
    (updateMemberConfig s w member cfgfile cfgIndex newContent).1 = .ok ()
    ∧ (updateMemberConfig s w member cfgfile cfgIndex newContent).2.2 =
        [Event.createConfigFile cfgfile.ServiceUUID
          (GenMemberConfigFileID member.MemberName cfgfile.FileName
            (GetConfigFileVersion cfgfile.FileID + 1)) (GenMD5 newContent),
         Event.updateServiceMember member (umcNewMember member cfgfile cfgIndex newContent),
         Event.deleteConfigFile cfgfile.ServiceUUID cfgfile.FileID]
    ∧ alookup (updateMemberConfig s w member cfgfile cfgIndex newContent).2.1.db.configFiles
        (cfgfile.ServiceUUID,
          GenMemberConfigFileID member.MemberName cfgfile.FileName
            (GetConfigFileVersion cfgfile.FileID + 1)) =
        some (UpdateConfigFile cfgfile
          (GenMemberConfigFileID member.MemberName cfgfile.FileName
            (GetConfigFileVersion cfgfile.FileID + 1)) newContent)
    ∧ findMember (updateMemberConfig s w member cfgfile cfgIndex newContent).2.1.db
        member.ServiceUUID member.MemberName =
        some (umcNewMember member cfgfile cfgIndex newContent)
    ∧ (w.env.deleteConfigFails = false →
        alookup (updateMemberConfig s w member cfgfile cfgIndex newContent).2.1.db.configFiles
          (cfgfile.ServiceUUID, cfgfile.FileID) = none)
    ∧ (w.env.deleteConfigFails = true →
        (updateMemberConfig s w member cfgfile cfgIndex newContent).1 = .ok ()) := by
  have hne : cfgfile.FileID ≠ GenMemberConfigFileID member.MemberName cfgfile.FileName
      (GetConfigFileVersion cfgfile.FileID + 1) := by
    intro h
    have hv := congrArg FileID.version h
    simp only [GenMemberConfigFileID, GetConfigFileVersion] at hv
    omega
  have hkey : ((cfgfile.ServiceUUID, cfgfile.FileID) : String × FileID) ≠
      (cfgfile.ServiceUUID,
        GenMemberConfigFileID member.MemberName cfgfile.FileName
          (GetConfigFileVersion cfgfile.FileID + 1)) := by
    intro h
    exact hne (congrArg Prod.snd h)
  have hCAS' : ((alookup w.db.members member.ServiceUUID).getD []).find?
      (fun m => decide (m.MemberName = member.MemberName)) = some member := hCAS
  have hout := updateMemberConfig_eq s w member cfgfile cfgIndex newContent hAbsent hCAS
  refine ⟨?_, ?_, ?_, ?_, ?_, ?_⟩
  · rw [hout]
  · rw [hout]
  · rw [hout]
    dsimp only
    cases hdel : w.env.deleteConfigFails with
    | true =>
      simp only [hdel, if_true, umcDb2]
      exact alookup_aset_self _ _ _
    | false =>
      simp only [hdel, Bool.false_eq_true, if_false, dbDeleteConfigFile, umcDb2]
      rw [alookup_aerase_of_ne hkey]
      exact alookup_aset_self _ _ _
  · rw [hout]
    dsimp only
    cases hdel : w.env.deleteConfigFails with
    | true =>
      simp only [hdel, if_true, findMember, membersOf, umcDb2, alookup_aset_self,
        Option.getD_some]
      exact find?_map_update _ member _ rfl hCAS'
    | false =>
      simp only [hdel, Bool.false_eq_true, if_false, dbDeleteConfigFile, findMember,
        membersOf, umcDb2, alookup_aset_self, Option.getD_some]
      exact find?_map_update _ member _ rfl hCAS'
  · intro hdel
    rw [hout]
    dsimp only
    simp only [hdel, Bool.false_eq_true, if_false, dbDeleteConfigFile]
    exact alookup_aerase_self _ _
  · intro _
    rw [hout]

/-- Witness for C5: the concrete slot of member mF moves from version 2 to 3,
the new file is stored, the old one deleted, and the call returns success. -/
theorem updateMemberConfigSpecWitness :
    (updateMemberConfig srvX wU5 mF fileU5 0 "new").1 = .ok () ∧
    alookup (updateMemberConfig srvX wU5 mF fileU5 0 "new").2.1.db.configFiles
      (fileU5.ServiceUUID,
        GenMemberConfigFileID mF.MemberName fileU5.FileName
          (GetConfigFileVersion fileU5.FileID + 1)) =
      some (UpdateConfigFile fileU5
        (GenMemberConfigFileID mF.MemberName fileU5.FileName
          (GetConfigFileVersion fileU5.FileID + 1)) "new") ∧
    alookup (updateMemberConfig srvX wU5 mF fileU5 0 "new").2.1.db.configFiles
      (fileU5.ServiceUUID, fileU5.FileID) = none := by
  have h := updateMemberConfigSpec srvX wU5 mF fileU5 0 "new" (by decide) (by decide)
  exact ⟨h.1, h.2.2.1, h.2.2.2.2.1 rfl⟩

/- ————————————————————————————————————————————————————————————————————————
   C10. updateConsulMemberConfig needs a basic-config slot.
   ———————————————————————————————————————————————————————————————————————— -/

/-- C10: updateConsulMemberConfig is safe only under the precondition that the
member has a config slot whose fileName satisfies the basic-config predicate:
when no slot matches, the cfg local stays nil and the cfg.FileID dereference
panics; when some slot matches, the routine never panics. -/
theorem updateConsulMemberConfigNilSafety (s : Srv) (w : World) (member : ServiceMember)
    (memberips : List (String × String)) :
    ((∀ c ∈ member.Configs, s.cats.IsBasicConfigFile c.FileName = false) →
      updateConsulMemberConfig s w member memberips = (.panics, w, []))
    ∧ (∀ c i, findCfg s.cats.IsBasicConfigFile member.Configs 0 = some (c, i) →
        (updateConsulMemberConfig s w member memberips).1 ≠ .panics) := by
  constructor
  · intro h
    unfold updateConsulMemberConfig
    rw [findCfg_eq_none h 0]
  · intro c i hfind
    unfold updateConsulMemberConfig
    rw [hfind]
    split
    · simp_all
    · split
      · simp
      · dsimp only
        split <;> simp

/-- Witness for C10: the member with no basic-config slot panics, the consul
sample member does not. -/
theorem updateConsulMemberConfigNilSafetyWitness :
    updateConsulMemberConfig srvX wPlain mNoB ipsH = (.panics, wPlain, []) ∧
    (updateConsulMemberConfig srvX wCons mH ipsH).1 ≠ .panics :=
  ⟨(updateConsulMemberConfigNilSafety srvX wPlain mNoB ipsH).1 (by decide),
   (updateConsulMemberConfigNilSafety srvX wCons mH ipsH).2
     ⟨"basic_config.json", ⟨"m1", "basic_config.json", 0⟩, fileCFix.FileMD5⟩ 0 (by decide)⟩

/- ————————————————————————————————————————————————————————————————————————
   C9. setRedisInit reads NodeIds[0] before any length check.
   ———————————————————————————————————————————————————————————————————————— -/

/-- C9: for every request that passes the cluster/region check, setRedisInit
reads NodeIds[0] before any length check: an empty NodeIds list panics out of
range (never a BadRequest rejection), and a non-empty list never panics. -/
theorem setRedisInitNodeIdsUnchecked (s : Srv) (w : World) (req : CatalogSetRedisInitRequest)
    (hc : req.Cluster = s.cluster) (hr : req.Region = s.region) :
    (req.NodeIds = [] → setRedisInit s w req = (.panics, w, []))
    ∧ (req.NodeIds ≠ [] → (setRedisInit s w req).1 ≠ .panics) := by
  have hcond : ¬(req.Cluster ≠ s.cluster ∨ req.Region ≠ s.region) := by simp [hc, hr]
  constructor
  · intro hnil
    unfold setRedisInit
    rw [if_neg hcond, hnil]
    rfl
  · intro hne
    unfold setRedisInit
    rw [if_neg hcond]
    rcases hl : req.NodeIds with _ | ⟨x, xs⟩
    · exact absurd hl hne
    · dsimp only [List.head?]
      split
      · simp
      · split
        · simp
        · split
          · simp
          · split
            · simp
            · exact toHttpResult_ne_panics _

/-- Witness for C9: the empty-NodeIds request panics on the rds2 world while
the same request with node ids does not. -/
theorem setRedisInitNodeIdsUncheckedWitness :
    setRedisInit srvX wR2 ⟨"r1", "c1", "rds2", []⟩ = (.panics, wR2, []) ∧
    (setRedisInit srvX wR2 reqR2).1 ≠ .panics :=
  ⟨(setRedisInitNodeIdsUnchecked srvX wR2 ⟨"r1", "c1", "rds2", []⟩ rfl rfl).1 rfl,
   (setRedisInitNodeIdsUnchecked srvX wR2 reqR2 rfl rfl).2 (by decide)⟩

/- ————————————————————————————————————————————————————————————————————————
   C2. createRedisClusterFile tri-behavior and SetRedisInit retry semantics.
   ———————————————————————————————————————————————————————————————————————— -/

theorem createRedisClusterFile_noop (s : Srv) (w : World) (member : ServiceMember)
    (cfg : ReplicaConfigFile) (c : MemberConfig)
    (hfind : member.Configs.find? (fun c => s.cats.IsClusterInfoFile c.FileName) = some c)
    (hmd5 : c.FileMD5 = GenMD5 cfg.Content) :
    createRedisClusterFile s w member cfg = (.ok member, w, []) := by
  unfold createRedisClusterFile
  rw [hfind]
  dsimp only
  rw [if_neg (by simp [hmd5])]

theorem createRedisClusterFile_mismatch (s : Srv) (w : World) (member : ServiceMember)
    (cfg : ReplicaConfigFile) (c : MemberConfig)
    (hfind : member.Configs.find? (fun c => s.cats.IsClusterInfoFile c.FileName) = some c)
    (hmd5 : c.FileMD5 ≠ GenMD5 cfg.Content) :
    createRedisClusterFile s w member cfg = (.error .configMismatch, w, []) := by
  unfold createRedisClusterFile
  rw [hfind]
  dsimp only
  rw [if_pos hmd5]

theorem createRedisClusterFile_eq (s : Srv) (w : World) (member : ServiceMember)
    (cfg : ReplicaConfigFile)
    (hnone : member.Configs.find? (fun c => s.cats.IsClusterInfoFile c.FileName) = none)
    (hAbsent : alookup w.db.configFiles
      (member.ServiceUUID, GenMemberConfigFileID member.MemberName cfg.FileName 0) = none)
    (hCAS : findMember w.db member.ServiceUUID member.MemberName = some member) :
    createRedisClusterFile s w member cfg =
      (.ok (crcfNewMember member cfg), { w with db := crcfDb2 w member cfg },
       [Event.createConfigFile member.ServiceUUID
          (GenMemberConfigFileID member.MemberName cfg.FileName 0) (GenMD5 cfg.Content),
        Event.updateServiceMember member (crcfNewMember member cfg)]) := by
  have hCAS' : ((alookup w.db.members member.ServiceUUID).getD []).find?
      (fun m => decide (m.MemberName = member.MemberName)) = some member := hCAS
  unfold createRedisClusterFile CreateConfigFile dbUpdateServiceMember
  rw [hnone]
  dsimp only [CreateInitialConfigFile, membersOf]
  rw [hAbsent]
  dsimp only [membersOf]
  rw [hCAS']
  dsimp only
  rw [if_pos rfl]
  rfl

theorem redisMembersLoop_head_mismatch (s : Srv) (cfg : ReplicaConfigFile) (w : World)
    (m : ServiceMember) (rest : List ServiceMember) (c : MemberConfig)
    (hfind : m.Configs.find? (fun c => s.cats.IsClusterInfoFile c.FileName) = some c)
    (hmd5 : c.FileMD5 ≠ GenMD5 cfg.Content) :
    redisMembersLoop s cfg w (m :: rest) = (.error .configMismatch, w, []) := by
  have hstep : redisMemberStep s w cfg m = (.error .configMismatch, w, []) := by
    unfold redisMemberStep
    rw [createRedisClusterFile_mismatch s w m cfg c hfind hmd5]
  unfold redisMembersLoop
  rw [hstep]

theorem redisMemberStep_noop (s : Srv) (cfg : ReplicaConfigFile) (w : World)
    (m : ServiceMember)
    (h1 : ∃ c, m.Configs.find? (fun c => s.cats.IsClusterInfoFile c.FileName) = some c ∧
      c.FileMD5 = GenMD5 cfg.Content)
    (h2 : ∀ c i, findCfg s.cats.IsRedisConfFile m.Configs 0 = some (c, i) →
      ∃ f, dbGetConfigFile w.db m.ServiceUUID c.FileID = .ok f ∧
        s.cats.NeedToEnableAuth f.Content = false ∧
        s.cats.NeedToSetClusterAnnounceIP f.Content = false) :
    (redisMemberStep s w cfg m).1 = .ok () ∧ (redisMemberStep s w cfg m).2.1 = w ∧
    ∀ e ∈ (redisMemberStep s w cfg m).2.2, isCfgWriteEv e = false := by
  obtain ⟨c, hfind, hmd5⟩ := h1
  unfold redisMemberStep
  rw [createRedisClusterFile_noop s w m cfg c hfind hmd5]
  dsimp only
  rcases hf : findCfg s.cats.IsRedisConfFile m.Configs 0 with _ | ⟨c2, i⟩
  · exact ⟨rfl, rfl, by intro e he; simp at he⟩
  · obtain ⟨f, hget, hp1, hp2⟩ := h2 c2 i hf
    have hupd : updateRedisConfigs s w c2 i m =
        (.ok (), w, [Event.getConfigFile m.ServiceUUID c2.FileID]) := by
      unfold updateRedisConfigs
      rw [hget]
      dsimp only
      rw [hp1, hp2]
      rw [if_pos (show (!false && !false) = true from rfl)]
    dsimp only
    rw [hupd]
    refine ⟨rfl, rfl, ?_⟩
    intro e he
    dsimp only at he
    simp only [List.nil_append, List.mem_singleton] at he
    subst he
    rfl

theorem redisMembersLoop_noop (s : Srv) (cfg : ReplicaConfigFile) :
    ∀ (ms : List ServiceMember) (w : World),
      (∀ m ∈ ms,
        (∃ c, m.Configs.find? (fun c => s.cats.IsClusterInfoFile c.FileName) = some c ∧
          c.FileMD5 = GenMD5 cfg.Content) ∧
        (∀ c i, findCfg s.cats.IsRedisConfFile m.Configs 0 = some (c, i) →
          ∃ f, dbGetConfigFile w.db m.ServiceUUID c.FileID = .ok f ∧
            s.cats.NeedToEnableAuth f.Content = false ∧
            s.cats.NeedToSetClusterAnnounceIP f.Content = false)) →
      (redisMembersLoop s cfg w ms).1 = .ok () ∧ (redisMembersLoop s cfg w ms).2.1 = w ∧
      ∀ e ∈ (redisMembersLoop s cfg w ms).2.2, isCfgWriteEv e = false := by
  intro ms
  induction ms with
  | nil =>
    intro w _
    exact ⟨rfl, rfl, by intro e he; simp [redisMembersLoop] at he⟩
  | cons m rest ih =>
    intro w hall
    have hm := hall m (by simp)
    have hstep := redisMemberStep_noop s cfg w m hm.1 hm.2
    unfold redisMembersLoop
    dsimp only
    rcases hr : (redisMemberStep s w cfg m).1 with er | u
    · rw [hr] at hstep
      exact absurd hstep.1 (by simp)
    · have hw : (redisMemberStep s w cfg m).2.1 = w := hstep.2.1
      rw [hw]
      have hrest := ih w (fun m' hm' => hall m' (by simp [hm']))
      refine ⟨hrest.1, hrest.2.1, ?_⟩
      intro e he
      rw [List.mem_append] at he
      rcases he with he | he
      · exact hstep.2.2 e he
      · exact hrest.2.2 e he

/-- C2: createRedisClusterFile is a no-op when the member already holds a
cluster-info file with matching MD5, fails with ConfigMismatch when the MD5
diverges, and otherwise creates the version-0 file and appends a new
MemberConfig slot via a CAS member update. Consequently a second SetRedisInit
with the same node ids performs no config write and succeeds, while a retry
whose cluster-info content diverges fails with ConfigMismatch (HTTP 500). -/
theorem redisClusterFileIdempotence (s : Srv) (w : World) :
    (∀ (member : ServiceMember) (cfg : ReplicaConfigFile) (c : MemberConfig),
      member.Configs.find? (fun c => s.cats.IsClusterInfoFile c.FileName) = some c →
      c.FileMD5 = GenMD5 cfg.Content →
      createRedisClusterFile s w member cfg = (.ok member, w, []))
    ∧ (∀ (member : ServiceMember) (cfg : ReplicaConfigFile) (c : MemberConfig),
      member.Configs.find? (fun c => s.cats.IsClusterInfoFile c.FileName) = some c →
      c.FileMD5 ≠ GenMD5 cfg.Content →
      createRedisClusterFile s w member cfg = (.error .configMismatch, w, []))
    ∧ (∀ (member : ServiceMember) (cfg : ReplicaConfigFile),
      member.Configs.find? (fun c => s.cats.IsClusterInfoFile c.FileName) = none →
      alookup w.db.configFiles
        (member.ServiceUUID, GenMemberConfigFileID member.MemberName cfg.FileName 0) = none →
      findMember w.db member.ServiceUUID member.MemberName = some member →
      createRedisClusterFile s w member cfg =
        (.ok (crcfNewMember member cfg), { w with db := crcfDb2 w member cfg },
         [Event.createConfigFile member.ServiceUUID
            (GenMemberConfigFileID member.MemberName cfg.FileName 0) (GenMD5 cfg.Content),
          Event.updateServiceMember member (crcfNewMember member cfg)]))
    ∧ (∀ (req : CatalogSetRedisInitRequest) (svc : Service) (attr : ServiceAttr)
        (m : ServiceMember) (rest : List ServiceMember) (c : MemberConfig),
      req.Cluster = s.cluster → req.Region = s.region → req.NodeIds ≠ [] →
      dbGetService w.db s.cluster req.ServiceName = .ok svc →
      dbGetServiceAttr w.db svc.ServiceUUID = .ok attr →
      membersOf w.db svc.ServiceUUID = m :: rest →
      m.Configs.find? (fun c => s.cats.IsClusterInfoFile c.FileName) = some c →
      c.FileMD5 ≠ GenMD5 (s.cats.CreateClusterInfoFile req.NodeIds).Content →
      (setRedisInit s w req).1 = .fail "ConfigMismatch" 500)
    ∧ (∀ (req : CatalogSetRedisInitRequest) (svc : Service) (attr : ServiceAttr),
      req.Cluster = s.cluster → req.Region = s.region → req.NodeIds ≠ [] →
      dbGetService w.db s.cluster req.ServiceName = .ok svc →
      dbGetServiceAttr w.db svc.ServiceUUID = .ok attr →
      (∀ m ∈ membersOf w.db svc.ServiceUUID,
        (∃ c, m.Configs.find? (fun c => s.cats.IsClusterInfoFile c.FileName) = some c ∧
          c.FileMD5 = GenMD5 (s.cats.CreateClusterInfoFile req.NodeIds).Content) ∧
        (∀ c i, findCfg s.cats.IsRedisConfFile m.Configs 0 = some (c, i) →
          ∃ f, dbGetConfigFile w.db m.ServiceUUID c.FileID = .ok f ∧
            s.cats.NeedToEnableAuth f.Content = false ∧
            s.cats.NeedToSetClusterAnnounceIP f.Content = false)) →
      w.env.restartFails = false →
      (setRedisInit s w req).1 = HttpResult.ok ∧
      (∀ e ∈ (setRedisInit s w req).2.2, isCfgWriteEv e = false) ∧
      (setRedisInit s w req).2.1.db.configFiles = w.db.configFiles ∧
      (setRedisInit s w req).2.1.db.members = w.db.members) := by
  refine ⟨?_, ?_, ?_, ?_, ?_⟩
  · intro member cfg c hfind hmd5
    exact createRedisClusterFile_noop s w member cfg c hfind hmd5
  · intro member cfg c hfind hmd5
    exact createRedisClusterFile_mismatch s w member cfg c hfind hmd5
  · intro member cfg hnone hAbsent hCAS
    exact createRedisClusterFile_eq s w member cfg hnone hAbsent hCAS
  · intro req svc attr m rest c hc hr hne hsvc hattr hmem hfind hmd5
    have hcond : ¬(req.Cluster ≠ s.cluster ∨ req.Region ≠ s.region) := by simp [hc, hr]
    unfold setRedisInit
    rw [if_neg hcond]
    rcases hl : req.NodeIds with _ | ⟨x, xs⟩
    · exact absurd hl hne
    · rw [hl] at hmd5
      dsimp only [List.head?]
      rw [hsvc]
      dsimp only
      rw [hattr]
      dsimp only
      rw [hmem]
      rw [redisMembersLoop_head_mismatch s _ _ m rest c hfind hmd5]
      rfl
  · intro req svc attr hc hr hne hsvc hattr hall hrf
    have hcond : ¬(req.Cluster ≠ s.cluster ∨ req.Region ≠ s.region) := by simp [hc, hr]
    have hattr' : alookup w.db.attrs svc.ServiceUUID = some attr :=
      dbGetServiceAttr_ok_alookup hattr
    unfold setRedisInit
    rw [if_neg hcond]
    rcases hl : req.NodeIds with _ | ⟨x, xs⟩
    · exact absurd hl hne
    · rw [hl] at hall
      dsimp only [List.head?]
      rw [hsvc]
      dsimp only
      rw [hattr]
      dsimp only
      have hloop := redisMembersLoop_noop s (s.cats.CreateClusterInfoFile (x :: xs))
        (membersOf w.db svc.ServiceUUID)
        { w with runner := (UpdateTaskStatusMsg w.runner svc.ServiceUUID
            "create the member to Redis nodeID mapping for the Redis cluster") }
        hall
      obtain ⟨hlr, hlw, hlevs⟩ := hloop
      rw [hlr]
      dsimp only
      rw [hlw]
      dsimp only
      rw [hrf]
      rw [if_neg (by simp)]
      dsimp only
      rw [setServiceInitialized_eq s
        { w with runner := (UpdateTaskStatusMsg (UpdateTaskStatusMsg w.runner svc.ServiceUUID
            "create the member to Redis nodeID mapping for the Redis cluster")
            svc.ServiceUUID "restarting all containers") }
        req.ServiceName svc attr hsvc hattr']
      refine ⟨rfl, ?_, rfl, rfl⟩
      intro e he
      dsimp only at he
      simp only [List.append_assoc, List.mem_append, List.mem_cons,
        List.not_mem_nil, or_false, List.mem_singleton] at he
      rcases he with (rfl | rfl | rfl) | he | (rfl | rfl | rfl)
      · rfl
      · rfl
      · rfl
      · exact hlevs e he
      · rfl
      · rfl
      · rfl

/-- Witness for C2: the three member-level behaviors and the two handler-level
retry outcomes on the sample worlds. -/
theorem redisClusterFileIdempotenceWitness :
    createRedisClusterFile srvX wPlain mA (catsX.CreateClusterInfoFile ["n0", "n1"]) =
      (.ok mA, wPlain, []) ∧
    (createRedisClusterFile srvX wPlain mA (catsX.CreateClusterInfoFile ["x0", "x1"])).1 =
      .error .configMismatch ∧
    (createRedisClusterFile srvX wFresh mC (catsX.CreateClusterInfoFile ["n0", "n1"])).1 =
      .ok (crcfNewMember mC (catsX.CreateClusterInfoFile ["n0", "n1"])) ∧
    (setRedisInit srvX wR3 reqR3).1 = .fail "ConfigMismatch" 500 ∧
    (setRedisInit srvX wR2 reqR2).1 = HttpResult.ok := by
  have hth := redisClusterFileIdempotence srvX wPlain
  refine ⟨?_, ?_, ?_, ?_, ?_⟩
  · exact hth.1 mA _ ⟨"cluster.info", fidInfo0, GenMD5 "n0,n1"⟩ (by decide) (by decide)
  · rw [hth.2.1 mA _ ⟨"cluster.info", fidInfo0, GenMD5 "n0,n1"⟩ (by decide) (by decide)]
  · rw [(redisClusterFileIdempotence srvX wFresh).2.2.1 mC _ (by decide) (by decide)
      (by decide)]
  · exact (redisClusterFileIdempotence srvX wR3).2.2.2.1 reqR3 ⟨"u-r3", "rds3"⟩
      ⟨"u-r3", "rds3", .initializing, 1, "dom"⟩ mE [] ⟨"cluster.info", fidInfo0, GenMD5 "n0,n1"⟩
      rfl rfl (by decide) (by decide) (by decide) (by decide) (by decide) (by decide)
  · refine ((redisClusterFileIdempotence srvX wR2).2.2.2.2 reqR2 ⟨"u-r2", "rds2"⟩
      ⟨"u-r2", "rds2", .initializing, 1, "dom"⟩ rfl rfl (by decide) (by decide) (by decide)
      ?_ rfl).1
    intro m hm
    rw [show membersOf wR2.db "u-r2" = [mD] from rfl] at hm
    rw [List.mem_singleton] at hm
    subst hm
    refine ⟨⟨⟨"cluster.info", fidInfo0, GenMD5 "n0,n1"⟩, by decide, by decide⟩, ?_⟩
    intro c i hfi
    rw [show findCfg srvX.cats.IsRedisConfFile mD.Configs 0 =
      some (⟨"redis.conf", fidRC, fileRC.FileMD5⟩, 1) from rfl] at hfi
    injection hfi with hp
    obtain ⟨rfl, rfl⟩ : (⟨"redis.conf", fidRC, fileRC.FileMD5⟩ : MemberConfig) = c ∧
        (1 : Nat) = i := by
      refine ⟨congrArg Prod.fst hp, congrArg Prod.snd hp⟩
    exact ⟨fileRC, by decide, by decide, by decide⟩

/- ————————————————————————————————————————————————————————————————————————
   C1. CheckServiceInit tri-state.
   ———————————————————————————————————————————————————————————————————————— -/

/-- C1: for every CheckServiceInit request whose service resolves: a live init
task answers (initialized=false, the task's status message); otherwise an
ACTIVE attr answers (true, ""); a status that is neither ACTIVE nor
INITIALIZING fails with BadRequest. -/
theorem checkServiceInitTristate (s : Srv) (w : World) (req : CatalogCheckServiceInitRequest)
    (svc : Service)
    (hc : req.Service.Cluster = s.cluster) (hr : req.Service.Region = s.region)
    (hsvc : dbGetService w.db s.cluster req.Service.ServiceName = .ok svc) :
    (∀ msg, alookup w.runner.tasks svc.ServiceUUID = some msg →
      (getCatalogServiceOp s w req).1 = .body ⟨false, msg⟩)
    ∧ (∀ attr, alookup w.runner.tasks svc.ServiceUUID = none →
        dbGetServiceAttr w.db svc.ServiceUUID = .ok attr →
        (attr.ServiceStatus = .active → (getCatalogServiceOp s w req).1 = .body ⟨true, ""⟩)
        ∧ (attr.ServiceStatus ≠ .active → attr.ServiceStatus ≠ .initializing →
            (getCatalogServiceOp s w req).1 = .fail badRequest 400)) := by
  have hcond : ¬(req.Service.Cluster ≠ s.cluster ∨ req.Service.Region ≠ s.region) := by
    simp [hc, hr]
  constructor
  · intro msg htask
    unfold getCatalogServiceOp
    rw [if_neg hcond, hsvc]
    dsimp only
    unfold hasInitTask
    rw [htask]
  · intro attr htask hattr
    constructor
    · intro hst
      unfold getCatalogServiceOp
      rw [if_neg hcond, hsvc]
      dsimp only
      unfold hasInitTask
      rw [htask]
      dsimp only
      rw [hattr]
      dsimp only
      rw [hst]
    · intro hna hni
      unfold getCatalogServiceOp
      rw [if_neg hcond, hsvc]
      dsimp only
      unfold hasInitTask
      rw [htask]
      dsimp only
      rw [hattr]
      dsimp only
      cases hstv : attr.ServiceStatus with
      | creating => rfl
      | initializing => exact absurd hstv hni
      | active => exact absurd hstv hna
      | deleting => rfl

/-- Witness for C1: the three branches on the sample worlds. -/
theorem checkServiceInitTristateWitness :
    (getCatalogServiceOp srvX wCheck reqTask).1 = .body ⟨false, "under way"⟩ ∧
    (getCatalogServiceOp srvX wCheck reqActive).1 = .body ⟨true, ""⟩ ∧
    (getCatalogServiceOp srvX wCheck reqBad).1 = .fail badRequest 400 := by
  refine ⟨?_, ?_, ?_⟩
  · exact (checkServiceInitTristate srvX wCheck reqTask ⟨"u9", "svc9"⟩ rfl rfl
      (by decide)).1 "under way" (by decide)
  · exact ((checkServiceInitTristate srvX wCheck reqActive ⟨"u1", "svc1"⟩ rfl rfl
      (by decide)).2 ⟨"u1", "svc1", .active, 3, "dom"⟩ (by decide) (by decide)).1 rfl
  · exact ((checkServiceInitTristate srvX wCheck reqBad ⟨"u3", "svcBad"⟩ rfl rfl
      (by decide)).2 ⟨"u3", "svcBad", .creating, 3, "dom"⟩ (by decide) (by decide)).2
      (by decide) (by decide)

/- ————————————————————————————————————————————————————————————————————————
   C6. CheckServiceInit resume dispatch on an INITIALIZING service.
   ———————————————————————————————————————————————————————————————————————— -/

/-- C6: on an INITIALIZING service with no live init task, CheckServiceInit
flips PostgreSQL / ZooKeeper / Kafka to ACTIVE and answers initialized=true;
re-submits the init task for MongoDB / Cassandra / Redis / CouchDB and answers
initialized=false; any other service type is a BadRequest. -/
theorem checkServiceInitResume (s : Srv) (w : World) (req : CatalogCheckServiceInitRequest)
    (svc : Service) (attr : ServiceAttr)
    (hc : req.Service.Cluster = s.cluster) (hr : req.Service.Region = s.region)
    (hsvc : dbGetService w.db s.cluster req.Service.ServiceName = .ok svc)
    (htask : alookup w.runner.tasks svc.ServiceUUID = none)
    (hattr : dbGetServiceAttr w.db svc.ServiceUUID = .ok attr)
    (hst : attr.ServiceStatus = .initializing) :
    ((req.ServiceType = .postgresql ∨ req.ServiceType = .zookeeper ∨
        req.ServiceType = .kafka) →
      (getCatalogServiceOp s w req).1 = .body ⟨true, ""⟩ ∧
      alookup (getCatalogServiceOp s w req).2.1.db.attrs svc.ServiceUUID =
        some { attr with ServiceStatus := .active })
    ∧ ((req.ServiceType = .mongodb ∨ req.ServiceType = .cassandra ∨
        req.ServiceType = .couchdb) →
      (getCatalogServiceOp s w req).1 = .body ⟨false, ""⟩ ∧
      alookup (getCatalogServiceOp s w req).2.1.runner.tasks svc.ServiceUUID = some "")
    ∧ (req.ServiceType = .redis → w.env.redisInitTaskOk = true →
      (getCatalogServiceOp s w req).1 = .body ⟨false, ""⟩ ∧
      alookup (getCatalogServiceOp s w req).2.1.runner.tasks svc.ServiceUUID = some "")
    ∧ ((req.ServiceType = .consul ∨ req.ServiceType = .elasticsearch ∨
        req.ServiceType = .kibana ∨ req.ServiceType = .logstash ∨
        (∃ tag, req.ServiceType = .unknown tag)) →
      (getCatalogServiceOp s w req).1 = .fail badRequest 400) := by
  have hcond : ¬(req.Service.Cluster ≠ s.cluster ∨ req.Service.Region ≠ s.region) := by
    simp [hc, hr]
  have hattr' : alookup w.db.attrs svc.ServiceUUID = some attr :=
    dbGetServiceAttr_ok_alookup hattr
  refine ⟨?_, ?_, ?_, ?_⟩
  · intro hty
    unfold getCatalogServiceOp
    rw [if_neg hcond, hsvc]
    dsimp only
    unfold hasInitTask
    rw [htask]
    dsimp only
    rw [hattr]
    dsimp only
    rw [hst]
    dsimp only
    rcases hty with hty | hty | hty <;>
      (rw [hty]
       dsimp only
       rw [setServiceInitialized_eq s w req.Service.ServiceName svc attr hsvc hattr']
       dsimp only
       exact ⟨rfl, alookup_aset_self _ _ _⟩)
  · intro hty
    unfold getCatalogServiceOp
    rw [if_neg hcond, hsvc]
    dsimp only
    unfold hasInitTask
    rw [htask]
    dsimp only
    rw [hattr]
    dsimp only
    rw [hst]
    dsimp only
    rcases hty with hty | hty | hty <;>
      (rw [hty]
       dsimp only [addMongoDBInitTask, addCasInitTask, addCouchDBInitTask]
       unfold addInitTask
       rw [htask]
       exact ⟨rfl, by simp [alookup]⟩)
  · intro hty hredis
    unfold getCatalogServiceOp
    rw [if_neg hcond, hsvc]
    dsimp only
    unfold hasInitTask
    rw [htask]
    dsimp only
    rw [hattr]
    dsimp only
    rw [hst]
    dsimp only
    rw [hty]
    dsimp only
    unfold addRedisInitTask
    rw [if_pos hredis]
    dsimp only
    unfold addInitTask
    rw [htask]
    exact ⟨rfl, by simp [alookup]⟩
  · intro hty
    unfold getCatalogServiceOp
    rw [if_neg hcond, hsvc]
    dsimp only
    unfold hasInitTask
    rw [htask]
    dsimp only
    rw [hattr]
    dsimp only
    rw [hst]
    dsimp only
    rcases hty with hty | hty | hty | hty | ⟨tag, hty⟩ <;> rw [hty]

/-- Witness for C6: the four dispatch outcomes on the wInit sample world. -/
theorem checkServiceInitResumeWitness :
    (getCatalogServiceOp srvX wInit ⟨⟨"r1", "c1", "pgs"⟩, .postgresql, "a", "p", 0, 0⟩).1 =
      .body ⟨true, ""⟩ ∧
    (getCatalogServiceOp srvX wInit ⟨⟨"r1", "c1", "mgs"⟩, .mongodb, "a", "p", 0, 0⟩).1 =
      .body ⟨false, ""⟩ ∧
    (getCatalogServiceOp srvX wInit ⟨⟨"r1", "c1", "rds"⟩, .redis, "a", "p", 3, 2⟩).1 =
      .body ⟨false, ""⟩ ∧
    (getCatalogServiceOp srvX wInit ⟨⟨"r1", "c1", "cns"⟩, .consul, "a", "p", 0, 0⟩).1 =
      .fail badRequest 400 := by
  refine ⟨?_, ?_, ?_, ?_⟩
  · exact ((checkServiceInitResume srvX wInit _ ⟨"u-pg", "pgs"⟩
      ⟨"u-pg", "pgs", .initializing, 3, "dom"⟩ rfl rfl (by decide) (by decide) (by decide)
      rfl).1 (Or.inl rfl)).1
  · exact ((checkServiceInitResume srvX wInit _ ⟨"u-mg", "mgs"⟩
      ⟨"u-mg", "mgs", .initializing, 3, "dom"⟩ rfl rfl (by decide) (by decide) (by decide)
      rfl).2.1 (Or.inl rfl)).1
  · exact ((checkServiceInitResume srvX wInit _ ⟨"u-rd", "rds"⟩
      ⟨"u-rd", "rds", .initializing, 6, "dom"⟩ rfl rfl (by decide) (by decide) (by decide)
      rfl).2.2.1 rfl rfl).1
  · exact (checkServiceInitResume srvX wInit _ ⟨"u-cn", "cns"⟩
      ⟨"u-cn", "cns", .initializing, 3, "dom"⟩ rfl rfl (by decide) (by decide) (by decide)
      rfl).2.2.2 (Or.inl rfl)

/- ————————————————————————————————————————————————————————————————————————
   C7. Cluster/region mismatch is rejected before any external call.
   ———————————————————————————————————————————————————————————————————————— -/

/-- C7: every body-decoding operation (create, delete, list, get-status,
run-task, set-init, check-init) rejects a cluster or region mismatch with
BadRequest, leaves the world unchanged and performs no database, DNS or
container-platform call (empty event trace). -/
theorem mismatchRejectedNoCalls (s : Srv) (w : World) :
    (∀ req : CatalogCheckServiceInitRequest,
      req.Service.Cluster ≠ s.cluster ∨ req.Service.Region ≠ s.region →
      getCatalogServiceOp s w req = (.fail badRequest 400, w, []))
    ∧ (∀ req : CatalogSetServiceInitRequest,
      req.Cluster ≠ s.cluster ∨ req.Region ≠ s.region →
      catalogSetServiceInit s w req = (.fail badRequest 400, w, []))
    ∧ (∀ req : CatalogSetRedisInitRequest,
      req.Cluster ≠ s.cluster ∨ req.Region ≠ s.region →
      setRedisInit s w req = (.fail badRequest 400, w, []))
    ∧ (∀ req : CatalogCreateConsulRequest,
      req.Service.Cluster ≠ s.cluster ∨ req.Service.Region ≠ s.region →
      createConsulService s w req = (.fail badRequest 400, w, []))
    ∧ (∀ (name : String) (req : CreateServiceRequest),
      req.Service.Cluster ≠ s.cluster ∨ req.Service.Region ≠ s.region →
      createService s w name req = (.fail badRequest 400, w, []))
    ∧ (∀ (name : String) (req : ServiceCommonRequest),
      req.Cluster ≠ s.cluster ∨ req.Region ≠ s.region →
      deleteService s w name req = (.fail badRequest 400, w, []))
    ∧ (∀ req : ListServiceRequest,
      req.Cluster ≠ s.cluster ∨ req.Region ≠ s.region →
      listServices s w req = (.fail badRequest 400, w, []))
    ∧ (∀ req : ServiceCommonRequest,
      req.Cluster ≠ s.cluster ∨ req.Region ≠ s.region →
      getServiceStatus s w req = (.fail badRequest 400, w, []))
    ∧ (∀ req : RunTaskRequest,
      req.Service.Cluster ≠ s.cluster ∨ req.Service.Region ≠ s.region →
      runTask s w req = (.fail badRequest 400, w, []))
    ∧ (∀ req : ServiceCommonRequest,
      req.Cluster ≠ s.cluster ∨ req.Region ≠ s.region →
      serverSetServiceInitialized s w req = (.fail badRequest 400, w, [])) := by
  refine ⟨?_, ?_, ?_, ?_, ?_, ?_, ?_, ?_, ?_, ?_⟩
  · intro req h
    unfold getCatalogServiceOp
    rw [if_pos h]
  · intro req h
    unfold catalogSetServiceInit
    rw [if_pos h]
  · intro req h
    unfold setRedisInit
    rw [if_pos h]
  · intro req h
    unfold createConsulService
    rw [if_pos h]
  · intro name req h
    unfold createService
    rw [if_pos (h.imp id Or.inl)]
  · intro name req h
    unfold deleteService
    rw [if_pos (h.imp id Or.inl)]
  · intro req h
    unfold listServices
    rw [if_pos h]
  · intro req h
    unfold getServiceStatus
    rw [if_pos h]
  · intro req h
    unfold runTask
    rw [if_pos h]
  · intro req h
    unfold serverSetServiceInitialized
    rw [if_pos h]

/-- Witness for C7: a request naming cluster c2 against the c1 server is
rejected by every operation with BadRequest, unchanged world, empty trace. -/
theorem mismatchRejectedNoCallsWitness :
    getCatalogServiceOp srvX wCheck ⟨⟨"r1", "c2", "svc1"⟩, .mongodb, "a", "p", 0, 0⟩ =
      (.fail badRequest 400, wCheck, []) ∧
    setRedisInit srvX wR2 ⟨"r1", "c2", "rds2", ["n0"]⟩ = (.fail badRequest 400, wR2, []) ∧
    deleteService srvX wCheck "svc1" ⟨"r9", "c1", "svc1"⟩ = (.fail badRequest 400, wCheck, []) ∧
    runTask srvX wCheck ⟨⟨"r1", "c2", "svc1"⟩, "init", "img"⟩ =
      (.fail badRequest 400, wCheck, []) :=
  ⟨(mismatchRejectedNoCalls srvX wCheck).1 _ (by decide),
   (mismatchRejectedNoCalls srvX wR2).2.2.1 _ (by decide),
   (mismatchRejectedNoCalls srvX wCheck).2.2.2.2.2.1 "svc1" _ (by decide),
   (mismatchRejectedNoCalls srvX wCheck).2.2.2.2.2.2.2.2.1 _ (by decide)⟩

/- ————————————————————————————————————————————————————————————————————————
   C4. Mutator ordering: restart strictly after all member updates, ACTIVE
   only after a successful restart.
   ———————————————————————————————————————————————————————————————————————— -/

theorem setMongoDBInit_ordering (s : Srv) (w : World) (req : CatalogSetServiceInitRequest) :
    (∃ pre post, (setMongoDBInit s w req).2.2 = pre ++ post ∧
      (∀ e ∈ pre, isRestartEv e = false ∧ isSetActiveEv e = false) ∧
      (∀ e ∈ post, isCfgWriteEv e = false) ∧
      (post = [] ∨
        ∃ rep rest, post = Event.restartService s.cluster req.ServiceName rep :: rest)) ∧
    (w.env.restartFails = true →
      ∀ e ∈ (setMongoDBInit s w req).2.2, isSetActiveEv e = false) := by
  unfold setMongoDBInit
  rcases hs : dbGetService w.db s.cluster req.ServiceName with e | service
  · dsimp only
    refine ⟨⟨_, [], (List.append_nil _).symm, ?_, ?_, Or.inl rfl⟩, ?_⟩
    · intro e' he
      rw [List.mem_singleton] at he
      subst he
      exact ⟨rfl, rfl⟩
    · intro e' he
      exact absurd he (List.not_mem_nil e')
    · intro _ e' he
      rw [List.mem_singleton] at he
      subst he
      rfl
  · dsimp only
    rcases ha : dbGetServiceAttr w.db service.ServiceUUID with e | attr
    · dsimp only
      refine ⟨⟨_, [], (List.append_nil _).symm, ?_, ?_, Or.inl rfl⟩, ?_⟩
      · intro e' he
        rw [List.mem_cons, List.mem_singleton] at he
        rcases he with rfl | rfl <;> exact ⟨rfl, rfl⟩
      · intro e' he
        exact absurd he (List.not_mem_nil e')
      · intro _ e' he
        rw [List.mem_cons, List.mem_singleton] at he
        rcases he with rfl | rfl <;> rfl
    · dsimp only
      split
      · refine ⟨⟨_, [], (List.append_nil _).symm, ?_, ?_, Or.inl rfl⟩, ?_⟩
        · intro e' he
          rw [List.mem_append] at he
          rcases he with he | he
          · rw [List.mem_cons, List.mem_cons, List.mem_singleton] at he
            rcases he with rfl | rfl | rfl <;> exact ⟨rfl, rfl⟩
          · have hp := mutatorExternal_parts (mongoMembersLoop_events s _ _ e' he)
            exact ⟨hp.1, hp.2.1⟩
        · intro e' he
          exact absurd he (List.not_mem_nil e')
        · intro _ e' he
          rw [List.mem_append] at he
          rcases he with he | he
          · rw [List.mem_cons, List.mem_cons, List.mem_singleton] at he
            rcases he with rfl | rfl | rfl <;> rfl
          · exact (mutatorExternal_parts (mongoMembersLoop_events s _ _ e' he)).2.1
      · split
        · refine ⟨⟨_, [Event.restartService s.cluster req.ServiceName attr.Replicas],
            rfl, ?_, ?_, Or.inr ⟨attr.Replicas, [], rfl⟩⟩, ?_⟩
          · intro e' he
            rw [List.mem_append] at he
            rcases he with he | he
            · rw [List.mem_cons, List.mem_cons, List.mem_singleton] at he
              rcases he with rfl | rfl | rfl <;> exact ⟨rfl, rfl⟩
            · have hp := mutatorExternal_parts (mongoMembersLoop_events s _ _ e' he)
              exact ⟨hp.1, hp.2.1⟩
          · intro e' he
            rw [List.mem_singleton] at he
            subst he
            rfl
          · intro _ e' he
            rw [List.mem_append, List.mem_append] at he
            rcases he with (he | he) | he
            · rw [List.mem_cons, List.mem_cons, List.mem_singleton] at he
              rcases he with rfl | rfl | rfl <;> rfl
            · exact (mutatorExternal_parts (mongoMembersLoop_events s _ _ e' he)).2.1
            · rw [List.mem_singleton] at he
              subst he
              rfl
        · rename_i hnr
          refine ⟨⟨_, _, List.append_assoc _ _ _, ?_, ?_, Or.inr ⟨attr.Replicas, _, rfl⟩⟩, ?_⟩
          · intro e' he
            rw [List.mem_append] at he
            rcases he with he | he
            · rw [List.mem_cons, List.mem_cons, List.mem_singleton] at he
              rcases he with rfl | rfl | rfl <;> exact ⟨rfl, rfl⟩
            · have hp := mutatorExternal_parts (mongoMembersLoop_events s _ _ e' he)
              exact ⟨hp.1, hp.2.1⟩
          · intro e' he
            rw [List.mem_append] at he
            rcases he with he | he
            · rw [List.mem_singleton] at he
              subst he
              rfl
            · exact (setServiceInitialized_cfgwrite s _ req.ServiceName e' he).1
          · intro hrf e' he
            rw [mongoMembersLoop_env s] at hnr
            exact absurd hrf hnr

theorem setRedisInit_ordering (s : Srv) (w : World) (req : CatalogSetRedisInitRequest) :
    (∃ pre post, (setRedisInit s w req).2.2 = pre ++ post ∧
      (∀ e ∈ pre, isRestartEv e = false ∧ isSetActiveEv e = false) ∧
      (∀ e ∈ post, isCfgWriteEv e = false) ∧
      (post = [] ∨
        ∃ rep rest, post = Event.restartService s.cluster req.ServiceName rep :: rest)) ∧
    (w.env.restartFails = true →
      ∀ e ∈ (setRedisInit s w req).2.2, isSetActiveEv e = false) := by
  unfold setRedisInit
  split
  · refine ⟨⟨[], [], rfl, ?_, ?_, Or.inl rfl⟩, ?_⟩
    · intro e' he
      exact absurd he (List.not_mem_nil e')
    · intro e' he
      exact absurd he (List.not_mem_nil e')
    · intro _ e' he
      exact absurd he (List.not_mem_nil e')
  · rcases hh : req.NodeIds.head? with _ | x
    · dsimp only
      refine ⟨⟨[], [], rfl, ?_, ?_, Or.inl rfl⟩, ?_⟩
      · intro e' he
        exact absurd he (List.not_mem_nil e')
      · intro e' he
        exact absurd he (List.not_mem_nil e')
      · intro _ e' he
        exact absurd he (List.not_mem_nil e')
    · dsimp only
      rcases hs : dbGetService w.db s.cluster req.ServiceName with e | service
      · dsimp only
        refine ⟨⟨_, [], (List.append_nil _).symm, ?_, ?_, Or.inl rfl⟩, ?_⟩
        · intro e' he
          rw [List.mem_singleton] at he
          subst he
          exact ⟨rfl, rfl⟩
        · intro e' he
          exact absurd he (List.not_mem_nil e')
        · intro _ e' he
          rw [List.mem_singleton] at he
          subst he
          rfl
      · dsimp only
        rcases ha : dbGetServiceAttr w.db service.ServiceUUID with e | attr
        · dsimp only
          refine ⟨⟨_, [], (List.append_nil _).symm, ?_, ?_, Or.inl rfl⟩, ?_⟩
          · intro e' he
            rw [List.mem_cons, List.mem_singleton] at he
            rcases he with rfl | rfl <;> exact ⟨rfl, rfl⟩
          · intro e' he
            exact absurd he (List.not_mem_nil e')
          · intro _ e' he
            rw [List.mem_cons, List.mem_singleton] at he
            rcases he with rfl | rfl <;> rfl
        · dsimp only
          split
          · refine ⟨⟨_, [], (List.append_nil _).symm, ?_, ?_, Or.inl rfl⟩, ?_⟩
            · intro e' he
              rw [List.mem_append] at he
              rcases he with he | he
              · rw [List.mem_cons, List.mem_cons, List.mem_singleton] at he
                rcases he with rfl | rfl | rfl <;> exact ⟨rfl, rfl⟩
              · have hp := mutatorExternal_parts (redisMembersLoop_events s _ _ _ e' he)
                exact ⟨hp.1, hp.2.1⟩
            · intro e' he
              exact absurd he (List.not_mem_nil e')
            · intro _ e' he
              rw [List.mem_append] at he
              rcases he with he | he
              · rw [List.mem_cons, List.mem_cons, List.mem_singleton] at he
                rcases he with rfl | rfl | rfl <;> rfl
              · exact (mutatorExternal_parts (redisMembersLoop_events s _ _ _ e' he)).2.1
          · split
            · refine ⟨⟨_, [Event.restartService s.cluster req.ServiceName attr.Replicas],
                rfl, ?_, ?_, Or.inr ⟨attr.Replicas, [], rfl⟩⟩, ?_⟩
              · intro e' he
                rw [List.mem_append] at he
                rcases he with he | he
                · rw [List.mem_cons, List.mem_cons, List.mem_singleton] at he
                  rcases he with rfl | rfl | rfl <;> exact ⟨rfl, rfl⟩
                · have hp := mutatorExternal_parts (redisMembersLoop_events s _ _ _ e' he)
                  exact ⟨hp.1, hp.2.1⟩
              · intro e' he
                rw [List.mem_singleton] at he
                subst he
                rfl
              · intro _ e' he
                rw [List.mem_append, List.mem_append] at he
                rcases he with (he | he) | he
                · rw [List.mem_cons, List.mem_cons, List.mem_singleton] at he
                  rcases he with rfl | rfl | rfl <;> rfl
                · exact (mutatorExternal_parts (redisMembersLoop_events s _ _ _ e' he)).2.1
                · rw [List.mem_singleton] at he
                  subst he
                  rfl
            · rename_i hnr
              refine ⟨⟨_, _, List.append_assoc _ _ _, ?_, ?_,
                Or.inr ⟨attr.Replicas, _, rfl⟩⟩, ?_⟩
              · intro e' he
                rw [List.mem_append] at he
                rcases he with he | he
                · rw [List.mem_cons, List.mem_cons, List.mem_singleton] at he
                  rcases he with rfl | rfl | rfl <;> exact ⟨rfl, rfl⟩
                · have hp := mutatorExternal_parts (redisMembersLoop_events s _ _ _ e' he)
                  exact ⟨hp.1, hp.2.1⟩
              · intro e' he
                rw [List.mem_append] at he
                rcases he with he | he
                · rw [List.mem_singleton] at he
                  subst he
                  rfl
                · exact (setServiceInitialized_cfgwrite s _ req.ServiceName e' he).1
              · intro hrf e' he
                rw [redisMembersLoop_env s] at hnr
                exact absurd hrf hnr

/-- C4: in a single mutator run (setMongoDBInit, setRedisInit) the event trace
splits into a prefix with no RestartService and no SetServiceStatus(ACTIVE)
call — all member config writes live there — followed by a suffix that starts
with the RestartService call (if the run got that far) and contains no further
config write; and if RestartService fails the run never emits
SetServiceStatus(ACTIVE) at all. -/
theorem mutatorRestartOrdering (s : Srv) (w : World) :
    (∀ req : CatalogSetServiceInitRequest,
      (∃ pre post, (setMongoDBInit s w req).2.2 = pre ++ post ∧
        (∀ e ∈ pre, isRestartEv e = false ∧ isSetActiveEv e = false) ∧
        (∀ e ∈ post, isCfgWriteEv e = false) ∧
        (post = [] ∨
          ∃ rep rest, post = Event.restartService s.cluster req.ServiceName rep :: rest)) ∧
      (w.env.restartFails = true →
        ∀ e ∈ (setMongoDBInit s w req).2.2, isSetActiveEv e = false)) ∧
    (∀ req : CatalogSetRedisInitRequest,
      (∃ pre post, (setRedisInit s w req).2.2 = pre ++ post ∧
        (∀ e ∈ pre, isRestartEv e = false ∧ isSetActiveEv e = false) ∧
        (∀ e ∈ post, isCfgWriteEv e = false) ∧
        (post = [] ∨
          ∃ rep rest, post = Event.restartService s.cluster req.ServiceName rep :: rest)) ∧
      (w.env.restartFails = true →
        ∀ e ∈ (setRedisInit s w req).2.2, isSetActiveEv e = false)) :=
  ⟨fun req => setMongoDBInit_ordering s w req,
   fun req => setRedisInit_ordering s w req⟩

/-- Witness for C4: the split on the sample MongoDB run, and the
no-ACTIVE-after-failed-restart guarantee on the Redis world whose container
platform fails the restart. -/
theorem mutatorRestartOrderingWitness :
    (∃ pre post, (setMongoDBInit srvX wM4 reqM4).2.2 = pre ++ post ∧
      (∀ e ∈ pre, isRestartEv e = false ∧ isSetActiveEv e = false) ∧
      (∀ e ∈ post, isCfgWriteEv e = false) ∧
      (post = [] ∨
        ∃ rep rest, post = Event.restartService srvX.cluster reqM4.ServiceName rep :: rest)) ∧
    (∀ e ∈ (setRedisInit srvX wR2rf reqR2).2.2, isSetActiveEv e = false) :=
  ⟨((mutatorRestartOrdering srvX wM4).1 reqM4).1,
   ((mutatorRestartOrdering srvX wR2rf).2 reqR2).2 rfl⟩

/- ————————————————————————————————————————————————————————————————————————
   C3. Mutator idempotence: true for the MongoDB and Redis probes, false for
   the Consul replace-member-name rewrite.
   ———————————————————————————————————————————————————————————————————————— -/

/-- The Consul transform is NOT idempotent: even when replace-member-name
leaves the basic-config content unchanged, updateConsulMemberConfig still
performs an UpdateMemberConfig, creating a new version-1 ConfigFile and
rewriting the member slot, so the ServiceMember does not stay unchanged. -/
theorem consulMutatorNotIdempotentCounterexample :
    srvX.cats.ReplaceMemberName fileCFix.Content ipsH = fileCFix.Content ∧
    (updateConsulMemberConfig srvX wCons mH ipsH).1 = CRes.ok () ∧
    findMember (updateConsulMemberConfig srvX wCons mH ipsH).2.1.db "u-c" "m1" ≠ some mH ∧
    alookup (updateConsulMemberConfig srvX wCons mH ipsH).2.1.db.configFiles
      ("u-c", GenMemberConfigFileID "m1" "basic_config.json" 1) ≠ none := by decide

/-- C3 (amended): the MongoDB enable-auth transform is a no-op when the probe
reports auth already enabled; updateRedisConfigs performs no UpdateMemberConfig
when neither redis probe fires and exactly one combined update when either
fires; but the Consul replace-member-name path performs an UpdateMemberConfig
unconditionally — there is no probe, so it is not a no-op even on content the
rewrite leaves unchanged. -/
theorem mutatorIdempotence (s : Srv) (w : World) :
    (∀ (cfg : MemberConfig) (cfgIndex : Nat) (member : ServiceMember) (f : ConfigFile),
      dbGetConfigFile w.db member.ServiceUUID cfg.FileID = .ok f →
      s.cats.IsAuthEnabled f.Content = true →
      enableMongoDBAuth s w cfg cfgIndex member =
        (.ok (), w, [Event.getConfigFile member.ServiceUUID cfg.FileID])) ∧
    (∀ (cfg : MemberConfig) (cfgIndex : Nat) (member : ServiceMember) (f : ConfigFile),
      dbGetConfigFile w.db member.ServiceUUID cfg.FileID = .ok f →
      s.cats.NeedToEnableAuth f.Content = false →
      s.cats.NeedToSetClusterAnnounceIP f.Content = false →
      updateRedisConfigs s w cfg cfgIndex member =
        (.ok (), w, [Event.getConfigFile member.ServiceUUID cfg.FileID])) ∧
    (∀ (cfg : MemberConfig) (cfgIndex : Nat) (member : ServiceMember) (f : ConfigFile),
      dbGetConfigFile w.db member.ServiceUUID cfg.FileID = .ok f →
      (s.cats.NeedToEnableAuth f.Content || s.cats.NeedToSetClusterAnnounceIP f.Content)
        = true →
      updateRedisConfigs s w cfg cfgIndex member =
        ((updateMemberConfig s w member f cfgIndex (redisNewContent s member f)).1,
         (updateMemberConfig s w member f cfgIndex (redisNewContent s member f)).2.1,
         Event.getConfigFile member.ServiceUUID cfg.FileID ::
           (updateMemberConfig s w member f cfgIndex (redisNewContent s member f)).2.2)) ∧
    (∀ (member : ServiceMember) (ips : List (String × String)) (cfg : MemberConfig)
        (cfgIndex : Nat) (f : ConfigFile),
      findCfg s.cats.IsBasicConfigFile member.Configs 0 = some (cfg, cfgIndex) →
      dbGetConfigFile w.db member.ServiceUUID cfg.FileID = .ok f →
      (updateConsulMemberConfig s w member ips).2.1 =
        (updateMemberConfig s w member f cfgIndex
          (s.cats.ReplaceMemberName f.Content ips)).2.1 ∧
      (updateConsulMemberConfig s w member ips).2.2 =
        Event.getConfigFile member.ServiceUUID cfg.FileID ::
          (updateMemberConfig s w member f cfgIndex
            (s.cats.ReplaceMemberName f.Content ips)).2.2) := by
  refine ⟨?_, ?_, ?_, ?_⟩
  · intro cfg cfgIndex member f h1 h2
    unfold enableMongoDBAuth
    rw [h1]
    dsimp only
    rw [if_pos h2]
  · intro cfg cfgIndex member f h1 h2 h3
    unfold updateRedisConfigs
    rw [h1]
    dsimp only
    rw [h2, h3]
    rw [if_pos (show (!false && !false) = true from rfl)]
  · intro cfg cfgIndex member f h1 h2
    unfold updateRedisConfigs
    rw [h1]
    dsimp only
    have hcond : (!s.cats.NeedToEnableAuth f.Content &&
        !s.cats.NeedToSetClusterAnnounceIP f.Content) = false := by
      rcases ha : s.cats.NeedToEnableAuth f.Content <;>
        rcases hb : s.cats.NeedToSetClusterAnnounceIP f.Content <;>
        simp_all
    rw [if_neg (by rw [hcond]; simp)]
    rfl
  · intro member ips cfg cfgIndex f hfind hget
    unfold updateConsulMemberConfig
    rw [hfind]
    dsimp only
    rw [hget]
    dsimp only
    exact ⟨rfl, rfl⟩

/-- Witness for C3: the MongoDB no-op, the Redis no-probe no-op, the Redis
single combined update and the unconditional Consul update, on the sample
worlds. -/
theorem mutatorIdempotenceWitness :
    enableMongoDBAuth srvX wG ⟨"mongod.conf", fidMg0, fileMgAuth.FileMD5⟩ 0 mG =
      (.ok (), wG, [Event.getConfigFile mG.ServiceUUID fidMg0]) ∧
    updateRedisConfigs srvX wR2 ⟨"redis.conf", fidRC, fileRC.FileMD5⟩ 1 mD =
      (.ok (), wR2, [Event.getConfigFile mD.ServiceUUID fidRC]) ∧
    updateRedisConfigs srvX wRP ⟨"redis.conf", fidRC, fileRP.FileMD5⟩ 0 mP =
      ((updateMemberConfig srvX wRP mP fileRP 0 (redisNewContent srvX mP fileRP)).1,
       (updateMemberConfig srvX wRP mP fileRP 0 (redisNewContent srvX mP fileRP)).2.1,
       Event.getConfigFile mP.ServiceUUID fidRC ::
         (updateMemberConfig srvX wRP mP fileRP 0 (redisNewContent srvX mP fileRP)).2.2) ∧
    (updateConsulMemberConfig srvX wCons mH ipsH).2.1 =
      (updateMemberConfig srvX wCons mH fileCFix 0
        (srvX.cats.ReplaceMemberName fileCFix.Content ipsH)).2.1 :=
  ⟨(mutatorIdempotence srvX wG).1 ⟨"mongod.conf", fidMg0, fileMgAuth.FileMD5⟩ 0 mG
      fileMgAuth (by decide) (by decide),
   (mutatorIdempotence srvX wR2).2.1 ⟨"redis.conf", fidRC, fileRC.FileMD5⟩ 1 mD
      fileRC (by decide) (by decide) (by decide),
   (mutatorIdempotence srvX wRP).2.2.1 ⟨"redis.conf", fidRC, fileRP.FileMD5⟩ 0 mP
      fileRP (by decide) (by decide),
   ((mutatorIdempotence srvX wCons).2.2.2 mH ipsH
      ⟨"basic_config.json", ⟨"m1", "basic_config.json", 0⟩, fileCFix.FileMD5⟩ 0
      fileCFix (by decide) (by decide)).1⟩

/- ————————————————————————————————————————————————————————————————————————
   C8. Consul create: rewrite after control-plane create and before
   container-platform create; response carries the member static IPs.
   ———————————————————————————————————————————————————————————————————————— -/

theorem updateConsulMemberConfig_env (s : Srv) (w : World) (member : ServiceMember)
    (memberips : List (String × String)) :
    (updateConsulMemberConfig s w member memberips).2.1.env = w.env := by
  unfold updateConsulMemberConfig
  rcases hf : findCfg s.cats.IsBasicConfigFile member.Configs 0 with _ | ⟨cfg, i⟩
  · rfl
  · dsimp only
    rcases hg : dbGetConfigFile w.db member.ServiceUUID cfg.FileID with e | cfgfile
    · rfl
    · dsimp only
      exact updateMemberConfig_env s w member cfgfile i _

theorem consulMembersLoop_env (s : Srv) (memberips : List (String × String)) :
    ∀ (ms : List ServiceMember) (w : World),
      (consulMembersLoop s memberips w ms).2.1.env = w.env := by
  intro ms
  induction ms with
  | nil => intro w; rfl
  | cons m rest ih =>
    intro w
    unfold consulMembersLoop
    dsimp only
    rcases hr : (updateConsulMemberConfig s w m memberips).1 with u | e | _
    · exact (ih _).trans (updateConsulMemberConfig_env s w m memberips)
    · exact updateConsulMemberConfig_env s w m memberips
    · exact updateConsulMemberConfig_env s w m memberips

/-- C8: on the all-success path, createConsulService runs the member-config
rewrite strictly between the control-plane create and the container-platform
existence check / create, then flips the service ACTIVE, and answers 200 with
ConsulServerIPs equal to the member static IPs in ListServiceMembers order;
the rewrite itself emits no create-protocol, restart or status event. -/
theorem consulCreateOrdering (s : Srv) (w : World) (req : CatalogCreateConsulRequest)
    (uuid : String) (db1 : DB) (svc : Service) (attr : ServiceAttr)
    (lw : World) (levs : List Event)
    (hc : req.Service.Cluster = s.cluster) (hr : req.Service.Region = s.region)
    (hv : w.env.consulValidateOk = true)
    (hcp : w.env.cpCreate = .ok (uuid, db1))
    (hloop : consulMembersLoop s
        ((membersOf db1 uuid).map fun m =>
          (GenDNSName m.MemberName (GenDefaultDomainName s.cluster), m.StaticIP))
        { w with db := db1 } (membersOf db1 uuid) = (CRes.ok (), lw, levs))
    (hsvc : dbGetService lw.db s.cluster req.Service.ServiceName = .ok svc)
    (hattr : alookup lw.db.attrs svc.ServiceUUID = some attr)
    (hex : w.env.isServiceExistResult = .ok false)
    (hcc : w.env.containerCreateFails = false) :
    createConsulService s w req =
      (.body ⟨(membersOf db1 uuid).map fun m => m.StaticIP⟩,
       { lw with db := { lw.db with
           attrs := aset lw.db.attrs svc.ServiceUUID { attr with ServiceStatus := .active } } },
       [Event.controlPlaneCreate s.cluster req.Service.ServiceName] ++
         (Event.listServiceMembers uuid :: levs) ++
         [Event.isServiceExist s.cluster req.Service.ServiceName,
          Event.containerCreate uuid] ++
         [Event.getService s.cluster req.Service.ServiceName,
          Event.setServiceStatus svc.ServiceUUID .active]) ∧
    (∀ e ∈ levs,
      isCreatePhaseEv e = false ∧ isSetActiveEv e = false ∧ isRestartEv e = false) := by
  have hno : ¬(req.Service.Cluster ≠ s.cluster ∨ req.Service.Region ≠ s.region) := by
    simp [hc, hr]
  have henv : lw.env = w.env := by
    have h0 := consulMembersLoop_env s
      ((membersOf db1 uuid).map fun m =>
        (GenDNSName m.MemberName (GenDefaultDomainName s.cluster), m.StaticIP))
      (membersOf db1 uuid) { w with db := db1 }
    rw [hloop] at h0
    exact h0
  constructor
  · unfold createConsulService
    rw [if_neg hno]
    rw [hv]
    rw [if_neg (by simp)]
    rw [hcp]
    dsimp only
    unfold updateConsulConfigs
    dsimp only
    rw [hloop]
    dsimp only
    unfold createContainerService
    rw [henv, hex]
    dsimp only
    rw [hcc]
    rw [if_neg (by simp)]
    dsimp only
    rw [setServiceInitialized_eq s lw req.Service.ServiceName svc attr hsvc hattr]
    dsimp only
    rw [if_neg (by decide)]
    rw [henv]
  · intro e he
    have h0 : isMutatorExternalEv e = false := by
      refine consulMembersLoop_events s
        ((membersOf db1 uuid).map fun m =>
          (GenDNSName m.MemberName (GenDefaultDomainName s.cluster), m.StaticIP))
        (membersOf db1 uuid) { w with db := db1 } e ?_
      rw [hloop]
      exact he
    have hp := mutatorExternal_parts h0
    exact ⟨hp.2.2, hp.2.1, hp.1⟩

/-- Witness for C8: on the sample two-member Consul create, the response body
carries the two static IPs and the rewrite loop emitted no create-protocol
event. -/
theorem consulCreateOrderingWitness :
    (createConsulService srvX wConsul reqConsul).1 =
      .body ⟨["10.0.0.1", "10.0.0.2"]⟩ ∧
    (∀ e ∈ levsC,
      isCreatePhaseEv e = false ∧ isSetActiveEv e = false ∧ isRestartEv e = false) := by
  have h := consulCreateOrdering srvX wConsul reqConsul "u-consul" dbConsul
    ⟨"u-consul", "cns1"⟩ ⟨"u-consul", "cns1", .creating, 2, "dom"⟩ lwC levsC
    rfl rfl rfl rfl (by decide) (by decide) (by decide) rfl rfl
  refine ⟨?_, h.2⟩
  rw [h.1]
  rfl

end Firecamp
